import Mathlib

/-!
Verification of the ULID (Universally Unique Lexicographically Sortable
Identifier) codec shipped in this repository (`ulid_struct.hh`,
`ulid_uint128.hh`, `ulid_wrapper.cpp`).

The 16-byte-array-backed representation (`struct ULID { uint8_t data[16]; }`)
is embedded as a Lean structure with sixteen `Nat` fields, each kept below
256 by the wellformedness predicate `ULID.Wf`.  The native-128-bit-scalar
representation (`typedef __uint128_t ULID`) is embedded as a `Nat`, with an
explicit `% 2 ^ 128` wherever the C++ performs a `__uint128_t` operation
that can exceed 128 bits.  C++ `uint8_t` truncation (`static_cast<uint8_t>`)
is `% 256`.  For a non-negative (or any) 64-bit two's-complement value, the
low eight bits of an arithmetic right shift agree with the low eight bits of
the logical shift, so `static_cast<uint8_t>(timestamp >> k)` is embedded as
`(timestamp >>> k) % 256` on the 64-bit pattern.
-/

set_option maxRecDepth 40000
set_option linter.unusedVariables false

namespace Ulid

/-- Crockford's Base32 alphabet, `static const char Encoding[33]`
(the 33rd char of the C array is the terminating NUL, never indexed). -/
def Encoding : List Char :=
  ['0', '1', '2', '3', '4', '5', '6', '7', '8', '9',
   'A', 'B', 'C', 'D', 'E', 'F', 'G', 'H', 'J', 'K',
   'M', 'N', 'P', 'Q', 'R', 'S', 'T', 'V', 'W', 'X', 'Y', 'Z']

/-- Array indexing `Encoding[e]` (only indices below 32 are ever produced
by defined executions of the source). -/
def mChar (e : Nat) : Char := Encoding.getD e '0'

/-- The 256-entry decode table `static const uint8_t dec[256]`:
0xFF marks an invalid character, digits map to 0-9, capital letters
(skipping I, L, O, U) map to 10-31. -/
def decTable : List Nat :=
  [0xFF, 0xFF, 0xFF, 0xFF, 0xFF, 0xFF, 0xFF, 0xFF,
   0xFF, 0xFF, 0xFF, 0xFF, 0xFF, 0xFF, 0xFF, 0xFF,
   0xFF, 0xFF, 0xFF, 0xFF, 0xFF, 0xFF, 0xFF, 0xFF,
   0xFF, 0xFF, 0xFF, 0xFF, 0xFF, 0xFF, 0xFF, 0xFF,
   0xFF, 0xFF, 0xFF, 0xFF, 0xFF, 0xFF, 0xFF, 0xFF,
   0xFF, 0xFF, 0xFF, 0xFF, 0xFF, 0xFF, 0xFF, 0xFF,
   0x00, 0x01, 0x02, 0x03, 0x04, 0x05, 0x06, 0x07,
   0x08, 0x09, 0xFF, 0xFF, 0xFF, 0xFF, 0xFF, 0xFF,
   0xFF, 0x0A, 0x0B, 0x0C, 0x0D, 0x0E, 0x0F, 0x10,
   0x11, 0xFF, 0x12, 0x13, 0xFF, 0x14, 0x15, 0xFF,
   0x16, 0x17, 0x18, 0x19, 0x1A, 0xFF, 0x1B, 0x1C,
   0x1D, 0x1E, 0x1F, 0xFF, 0xFF, 0xFF, 0xFF, 0xFF,
   0xFF, 0xFF, 0xFF, 0xFF, 0xFF, 0xFF, 0xFF, 0xFF,
   0xFF, 0xFF, 0xFF, 0xFF, 0xFF, 0xFF, 0xFF, 0xFF,
   0xFF, 0xFF, 0xFF, 0xFF, 0xFF, 0xFF, 0xFF, 0xFF,
   0xFF, 0xFF, 0xFF, 0xFF, 0xFF, 0xFF, 0xFF, 0xFF,
   0xFF, 0xFF, 0xFF, 0xFF, 0xFF, 0xFF, 0xFF, 0xFF,
   0xFF, 0xFF, 0xFF, 0xFF, 0xFF, 0xFF, 0xFF, 0xFF,
   0xFF, 0xFF, 0xFF, 0xFF, 0xFF, 0xFF, 0xFF, 0xFF,
   0xFF, 0xFF, 0xFF, 0xFF, 0xFF, 0xFF, 0xFF, 0xFF,
   0xFF, 0xFF, 0xFF, 0xFF, 0xFF, 0xFF, 0xFF, 0xFF,
   0xFF, 0xFF, 0xFF, 0xFF, 0xFF, 0xFF, 0xFF, 0xFF,
   0xFF, 0xFF, 0xFF, 0xFF, 0xFF, 0xFF, 0xFF, 0xFF,
   0xFF, 0xFF, 0xFF, 0xFF, 0xFF, 0xFF, 0xFF, 0xFF,
   0xFF, 0xFF, 0xFF, 0xFF, 0xFF, 0xFF, 0xFF, 0xFF,
   0xFF, 0xFF, 0xFF, 0xFF, 0xFF, 0xFF, 0xFF, 0xFF,
   0xFF, 0xFF, 0xFF, 0xFF, 0xFF, 0xFF, 0xFF, 0xFF,
   0xFF, 0xFF, 0xFF, 0xFF, 0xFF, 0xFF, 0xFF, 0xFF,
   0xFF, 0xFF, 0xFF, 0xFF, 0xFF, 0xFF, 0xFF, 0xFF,
   0xFF, 0xFF, 0xFF, 0xFF, 0xFF, 0xFF, 0xFF, 0xFF,
   0xFF, 0xFF, 0xFF, 0xFF, 0xFF, 0xFF, 0xFF, 0xFF,
   0xFF, 0xFF, 0xFF, 0xFF, 0xFF, 0xFF, 0xFF, 0xFF]

/-- Table lookup `dec[int(c)]` on a character's code point. -/
def dec (c : Char) : Nat := decTable.getD c.toNat 0xFF

end Ulid

namespace UlidStruct

open Ulid

/-- `struct ULID { uint8_t data[16]; }` from `ulid_struct.hh`, one field
per array slot. -/
structure ULID where
  data0 : Nat
  data1 : Nat
  data2 : Nat
  data3 : Nat
  data4 : Nat
  data5 : Nat
  data6 : Nat
  data7 : Nat
  data8 : Nat
  data9 : Nat
  data10 : Nat
  data11 : Nat
  data12 : Nat
  data13 : Nat
  data14 : Nat
  data15 : Nat
deriving DecidableEq

/-- Every field holds a byte value (the `uint8_t` invariant of the C array). -/
def ULID.Wf (u : ULID) : Prop :=
  u.data0 < 256 ∧ u.data1 < 256 ∧ u.data2 < 256 ∧ u.data3 < 256 ∧
  u.data4 < 256 ∧ u.data5 < 256 ∧ u.data6 < 256 ∧ u.data7 < 256 ∧
  u.data8 < 256 ∧ u.data9 < 256 ∧ u.data10 < 256 ∧ u.data11 < 256 ∧
  u.data12 < 256 ∧ u.data13 < 256 ∧ u.data14 < 256 ∧ u.data15 < 256

instance (u : ULID) : Decidable u.Wf := by
  unfold ULID.Wf
  infer_instance

/-- The 16 bytes of a ULID in array order (glue used to speak about byte
indices). -/
def ULID.bytes (u : ULID) : List Nat :=
  [u.data0, u.data1, u.data2, u.data3, u.data4, u.data5, u.data6, u.data7,
   u.data8, u.data9, u.data10, u.data11, u.data12, u.data13, u.data14, u.data15]

/-- The value of a ULID read as one big-endian 128-bit number (byte 0 most
significant); this is the abstraction relation to the `__uint128_t`
representation. -/
def ULID.toNat (u : ULID) : Nat :=
  u.data0 * 2 ^ 120 + u.data1 * 2 ^ 112 + u.data2 * 2 ^ 104 + u.data3 * 2 ^ 96 +
  u.data4 * 2 ^ 88 + u.data5 * 2 ^ 80 + u.data6 * 2 ^ 72 + u.data7 * 2 ^ 64 +
  u.data8 * 2 ^ 56 + u.data9 * 2 ^ 48 + u.data10 * 2 ^ 40 + u.data11 * 2 ^ 32 +
  u.data12 * 2 ^ 24 + u.data13 * 2 ^ 16 + u.data14 * 2 ^ 8 + u.data15

/-- `EncodeTimestamp` (`ulid_struct.hh`): writes the low 48 bits of the
timestamp big-endian into bytes 0-5, leaving bytes 6-15 as they were.
`static_cast<uint8_t>(timestamp >> k)` is `(timestamp >>> k) % 256` on the
64-bit pattern. -/
def EncodeTimestamp (timestamp : Nat) (ulid : ULID) : ULID :=
  { ulid with
    data0 := (timestamp >>> 40) % 256
    data1 := (timestamp >>> 32) % 256
    data2 := (timestamp >>> 24) % 256
    data3 := (timestamp >>> 16) % 256
    data4 := (timestamp >>> 8) % 256
    data5 := timestamp % 256 }

/-- `EncodeEntropy` (`ulid_struct.hh`): ten successive calls to the byte
source, stored in call order into bytes 6-15.  The C++ `std::function`
byte source is embedded as a state-passing function `rng : S → Nat × S`;
the returned state is the state after the tenth call. -/
def EncodeEntropy {S : Type} (rng : S → Nat × S) (s : S) (ulid : ULID) : ULID × S :=
  let r6 := rng s
  let r7 := rng r6.2
  let r8 := rng r7.2
  let r9 := rng r8.2
  let r10 := rng r9.2
  let r11 := rng r10.2
  let r12 := rng r11.2
  let r13 := rng r12.2
  let r14 := rng r13.2
  let r15 := rng r14.2
  ({ ulid with
     data6 := r6.1
     data7 := r7.1
     data8 := r8.1
     data9 := r9.1
     data10 := r10.1
     data11 := r11.1
     data12 := r12.1
     data13 := r13.1
     data14 := r14.1
     data15 := r15.1 }, r15.2)

/-- `MarshalTo` (`ulid_struct.hh`): the 26-character base-32 bit-slicing
encode, copied window for window from the source. -/
def MarshalTo (ulid : ULID) : List Char :=
  [mChar ((ulid.data0 &&& 224) >>> 5),
   mChar (ulid.data0 &&& 31),
   mChar ((ulid.data1 &&& 248) >>> 3),
   mChar (((ulid.data1 &&& 7) <<< 2) ||| ((ulid.data2 &&& 192) >>> 6)),
   mChar ((ulid.data2 &&& 62) >>> 1),
   mChar (((ulid.data2 &&& 1) <<< 4) ||| ((ulid.data3 &&& 240) >>> 4)),
   mChar (((ulid.data3 &&& 15) <<< 1) ||| ((ulid.data4 &&& 128) >>> 7)),
   mChar ((ulid.data4 &&& 124) >>> 2),
   mChar (((ulid.data4 &&& 3) <<< 3) ||| ((ulid.data5 &&& 224) >>> 5)),
   mChar (ulid.data5 &&& 31),
   mChar ((ulid.data6 &&& 248) >>> 3),
   mChar (((ulid.data6 &&& 7) <<< 2) ||| ((ulid.data7 &&& 192) >>> 6)),
   mChar ((ulid.data7 &&& 62) >>> 1),
   mChar (((ulid.data7 &&& 1) <<< 4) ||| ((ulid.data8 &&& 240) >>> 4)),
   mChar (((ulid.data8 &&& 15) <<< 1) ||| ((ulid.data9 &&& 128) >>> 7)),
   mChar ((ulid.data9 &&& 124) >>> 2),
   mChar (((ulid.data9 &&& 3) <<< 3) ||| ((ulid.data10 &&& 224) >>> 5)),
   mChar (ulid.data10 &&& 31),
   mChar ((ulid.data11 &&& 248) >>> 3),
   mChar (((ulid.data11 &&& 7) <<< 2) ||| ((ulid.data12 &&& 192) >>> 6)),
   mChar ((ulid.data12 &&& 62) >>> 1),
   mChar (((ulid.data12 &&& 1) <<< 4) ||| ((ulid.data13 &&& 240) >>> 4)),
   mChar (((ulid.data13 &&& 15) <<< 1) ||| ((ulid.data14 &&& 128) >>> 7)),
   mChar ((ulid.data14 &&& 124) >>> 2),
   mChar (((ulid.data14 &&& 3) <<< 3) ||| ((ulid.data15 &&& 224) >>> 5)),
   mChar (ulid.data15 &&& 31)]

/-- `Marshal` (`ulid_struct.hh`): `MarshalTo` packaged as a string. -/
def Marshal (ulid : ULID) : String := String.mk (MarshalTo ulid)

/-- `MarshalBinaryTo` (`ulid_struct.hh`): the identity copy of the 16 bytes
to the wire form. -/
def MarshalBinaryTo (ulid : ULID) : List Nat := ulid.bytes

/-- `UnmarshalFrom` (`ulid_struct.hh`): the inverse bit-slicing decode.
Each `ulid.data[i] = expr` assignment truncates the C `int` expression to
`uint8_t`, hence the `% 256`.  No validity check is made against the 0xFF
sentinel, exactly as in the source. -/
def UnmarshalFrom (str : List Char) : ULID :=
  { data0 := ((dec (str.getD 0 '0') <<< 5) ||| dec (str.getD 1 '0')) % 256
    data1 := ((dec (str.getD 2 '0') <<< 3) ||| (dec (str.getD 3 '0') >>> 2)) % 256
    data2 := ((dec (str.getD 3 '0') <<< 6) ||| (dec (str.getD 4 '0') <<< 1) |||
              (dec (str.getD 5 '0') >>> 4)) % 256
    data3 := ((dec (str.getD 5 '0') <<< 4) ||| (dec (str.getD 6 '0') >>> 1)) % 256
    data4 := ((dec (str.getD 6 '0') <<< 7) ||| (dec (str.getD 7 '0') <<< 2) |||
              (dec (str.getD 8 '0') >>> 3)) % 256
    data5 := ((dec (str.getD 8 '0') <<< 5) ||| dec (str.getD 9 '0')) % 256
    data6 := ((dec (str.getD 10 '0') <<< 3) ||| (dec (str.getD 11 '0') >>> 2)) % 256
    data7 := ((dec (str.getD 11 '0') <<< 6) ||| (dec (str.getD 12 '0') <<< 1) |||
              (dec (str.getD 13 '0') >>> 4)) % 256
    data8 := ((dec (str.getD 13 '0') <<< 4) ||| (dec (str.getD 14 '0') >>> 1)) % 256
    data9 := ((dec (str.getD 14 '0') <<< 7) ||| (dec (str.getD 15 '0') <<< 2) |||
              (dec (str.getD 16 '0') >>> 3)) % 256
    data10 := ((dec (str.getD 16 '0') <<< 5) ||| dec (str.getD 17 '0')) % 256
    data11 := ((dec (str.getD 18 '0') <<< 3) ||| (dec (str.getD 19 '0') >>> 2)) % 256
    data12 := ((dec (str.getD 19 '0') <<< 6) ||| (dec (str.getD 20 '0') <<< 1) |||
               (dec (str.getD 21 '0') >>> 4)) % 256
    data13 := ((dec (str.getD 21 '0') <<< 4) ||| (dec (str.getD 22 '0') >>> 1)) % 256
    data14 := ((dec (str.getD 22 '0') <<< 7) ||| (dec (str.getD 23 '0') <<< 2) |||
               (dec (str.getD 24 '0') >>> 3)) % 256
    data15 := ((dec (str.getD 24 '0') <<< 5) ||| dec (str.getD 25 '0')) % 256 }

/-- `Unmarshal` (`ulid_struct.hh`): decode from a string. -/
def Unmarshal (str : String) : ULID := UnmarshalFrom str.data

/-- `UnmarshalBinaryFrom` (`ulid_struct.hh`): inverse identity copy of 16
bytes. -/
def UnmarshalBinaryFrom (b : List Nat) : ULID :=
  { data0 := b.getD 0 0
    data1 := b.getD 1 0
    data2 := b.getD 2 0
    data3 := b.getD 3 0
    data4 := b.getD 4 0
    data5 := b.getD 5 0
    data6 := b.getD 6 0
    data7 := b.getD 7 0
    data8 := b.getD 8 0
    data9 := b.getD 9 0
    data10 := b.getD 10 0
    data11 := b.getD 11 0
    data12 := b.getD 12 0
    data13 := b.getD 13 0
    data14 := b.getD 14 0
    data15 := b.getD 15 0 }

/-- `CompareULIDs` (`ulid_struct.hh`): the unrolled byte-by-byte comparison;
`(a < b) * -2 + 1` is the C bool-to-int arithmetic producing -1 or 1. -/
def CompareULIDs (ulid1 ulid2 : ULID) : Int :=
  if ulid1.data0 ≠ ulid2.data0 then
    (if ulid1.data0 < ulid2.data0 then (1 : Int) else 0) * -2 + 1
  else if ulid1.data1 ≠ ulid2.data1 then
    (if ulid1.data1 < ulid2.data1 then (1 : Int) else 0) * -2 + 1
  else if ulid1.data2 ≠ ulid2.data2 then
    (if ulid1.data2 < ulid2.data2 then (1 : Int) else 0) * -2 + 1
  else if ulid1.data3 ≠ ulid2.data3 then
    (if ulid1.data3 < ulid2.data3 then (1 : Int) else 0) * -2 + 1
  else if ulid1.data4 ≠ ulid2.data4 then
    (if ulid1.data4 < ulid2.data4 then (1 : Int) else 0) * -2 + 1
  else if ulid1.data5 ≠ ulid2.data5 then
    (if ulid1.data5 < ulid2.data5 then (1 : Int) else 0) * -2 + 1
  else if ulid1.data6 ≠ ulid2.data6 then
    (if ulid1.data6 < ulid2.data6 then (1 : Int) else 0) * -2 + 1
  else if ulid1.data7 ≠ ulid2.data7 then
    (if ulid1.data7 < ulid2.data7 then (1 : Int) else 0) * -2 + 1
  else if ulid1.data8 ≠ ulid2.data8 then
    (if ulid1.data8 < ulid2.data8 then (1 : Int) else 0) * -2 + 1
  else if ulid1.data9 ≠ ulid2.data9 then
    (if ulid1.data9 < ulid2.data9 then (1 : Int) else 0) * -2 + 1
  else if ulid1.data10 ≠ ulid2.data10 then
    (if ulid1.data10 < ulid2.data10 then (1 : Int) else 0) * -2 + 1
  else if ulid1.data11 ≠ ulid2.data11 then
    (if ulid1.data11 < ulid2.data11 then (1 : Int) else 0) * -2 + 1
  else if ulid1.data12 ≠ ulid2.data12 then
    (if ulid1.data12 < ulid2.data12 then (1 : Int) else 0) * -2 + 1
  else if ulid1.data13 ≠ ulid2.data13 then
    (if ulid1.data13 < ulid2.data13 then (1 : Int) else 0) * -2 + 1
  else if ulid1.data14 ≠ ulid2.data14 then
    (if ulid1.data14 < ulid2.data14 then (1 : Int) else 0) * -2 + 1
  else if ulid1.data15 ≠ ulid2.data15 then
    (if ulid1.data15 < ulid2.data15 then (1 : Int) else 0) * -2 + 1
  else 0

/-- `Time` (`ulid_struct.hh`): the embedded millisecond count, reassembled
big-endian from bytes 0-5 by the `ans <<= 8; ans |= data[i]` chain. -/
def Time (ulid : ULID) : Nat :=
  let ans := 0 ||| ulid.data0
  let ans := (ans <<< 8) ||| ulid.data1
  let ans := (ans <<< 8) ||| ulid.data2
  let ans := (ans <<< 8) ||| ulid.data3
  let ans := (ans <<< 8) ||| ulid.data4
  let ans := (ans <<< 8) ||| ulid.data5
  ans

end UlidStruct

namespace Ulid128

open Ulid

/-- `typedef __uint128_t ULID` (`ulid_uint128.hh`); all arithmetic is
modulo `2 ^ 128`. -/
def size128 : Nat := 2 ^ 128

/-- `EncodeTimestamp` (`ulid_uint128.hh`): builds the 48-bit big-endian
timestamp by a shift/or chain, shifts it up 80 bits and keeps the low
80 entropy bits of the previous value through `mask = (1 << 80) - 1`. -/
def EncodeTimestamp (timestamp : Nat) (ulid : Nat) : Nat :=
  let t := (timestamp >>> 40) % 256
  let t := ((t <<< 8) % size128) ||| ((timestamp >>> 32) % 256)
  let t := ((t <<< 8) % size128) ||| ((timestamp >>> 24) % 256)
  let t := ((t <<< 8) % size128) ||| ((timestamp >>> 16) % 256)
  let t := ((t <<< 8) % size128) ||| ((timestamp >>> 8) % 256)
  let t := ((t <<< 8) % size128) ||| (timestamp % 256)
  let t := (t <<< 80) % size128
  let mask := ((1 <<< 80) % size128) - 1
  t ||| (ulid &&& mask)

/-- `EncodeEntropy` (`ulid_uint128.hh`): clears the low 80 bits with
`(ulid >> 80) << 80`, then accumulates ten byte-source outputs into them. -/
def EncodeEntropy {S : Type} (rng : S → Nat × S) (s : S) (ulid : Nat) : Nat × S :=
  let cleared := ((ulid >>> 80) <<< 80) % size128
  let r1 := rng s
  let r2 := rng r1.2
  let r3 := rng r2.2
  let r4 := rng r3.2
  let r5 := rng r4.2
  let r6 := rng r5.2
  let r7 := rng r6.2
  let r8 := rng r7.2
  let r9 := rng r8.2
  let r10 := rng r9.2
  let e := r1.1
  let e := ((e <<< 8) % size128) ||| r2.1
  let e := ((e <<< 8) % size128) ||| r3.1
  let e := ((e <<< 8) % size128) ||| r4.1
  let e := ((e <<< 8) % size128) ||| r5.1
  let e := ((e <<< 8) % size128) ||| r6.1
  let e := ((e <<< 8) % size128) ||| r7.1
  let e := ((e <<< 8) % size128) ||| r8.1
  let e := ((e <<< 8) % size128) ||| r9.1
  let e := ((e <<< 8) % size128) ||| r10.1
  (cleared ||| e, r10.2)

/-- `MarshalTo` (`ulid_uint128.hh`): the same 26-character bit-slicing
encode, reading each byte as `static_cast<uint8_t>(ulid >> k)`. -/
def MarshalTo (ulid : Nat) : List Char :=
  [mChar ((((ulid >>> 120) % 256) &&& 224) >>> 5),
   mChar (((ulid >>> 120) % 256) &&& 31),
   mChar ((((ulid >>> 112) % 256) &&& 248) >>> 3),
   mChar (((((ulid >>> 112) % 256) &&& 7) <<< 2) ||| ((((ulid >>> 104) % 256) &&& 192) >>> 6)),
   mChar ((((ulid >>> 104) % 256) &&& 62) >>> 1),
   mChar (((((ulid >>> 104) % 256) &&& 1) <<< 4) ||| ((((ulid >>> 96) % 256) &&& 240) >>> 4)),
   mChar (((((ulid >>> 96) % 256) &&& 15) <<< 1) ||| ((((ulid >>> 88) % 256) &&& 128) >>> 7)),
   mChar ((((ulid >>> 88) % 256) &&& 124) >>> 2),
   mChar (((((ulid >>> 88) % 256) &&& 3) <<< 3) ||| ((((ulid >>> 80) % 256) &&& 224) >>> 5)),
   mChar (((ulid >>> 80) % 256) &&& 31),
   mChar ((((ulid >>> 72) % 256) &&& 248) >>> 3),
   mChar (((((ulid >>> 72) % 256) &&& 7) <<< 2) ||| ((((ulid >>> 64) % 256) &&& 192) >>> 6)),
   mChar ((((ulid >>> 64) % 256) &&& 62) >>> 1),
   mChar (((((ulid >>> 64) % 256) &&& 1) <<< 4) ||| ((((ulid >>> 56) % 256) &&& 240) >>> 4)),
   mChar (((((ulid >>> 56) % 256) &&& 15) <<< 1) ||| ((((ulid >>> 48) % 256) &&& 128) >>> 7)),
   mChar ((((ulid >>> 48) % 256) &&& 124) >>> 2),
   mChar (((((ulid >>> 48) % 256) &&& 3) <<< 3) ||| ((((ulid >>> 40) % 256) &&& 224) >>> 5)),
   mChar (((ulid >>> 40) % 256) &&& 31),
   mChar ((((ulid >>> 32) % 256) &&& 248) >>> 3),
   mChar (((((ulid >>> 32) % 256) &&& 7) <<< 2) ||| ((((ulid >>> 24) % 256) &&& 192) >>> 6)),
   mChar ((((ulid >>> 24) % 256) &&& 62) >>> 1),
   mChar (((((ulid >>> 24) % 256) &&& 1) <<< 4) ||| ((((ulid >>> 16) % 256) &&& 240) >>> 4)),
   mChar (((((ulid >>> 16) % 256) &&& 15) <<< 1) ||| ((((ulid >>> 8) % 256) &&& 128) >>> 7)),
   mChar ((((ulid >>> 8) % 256) &&& 124) >>> 2),
   mChar (((((ulid >>> 8) % 256) &&& 3) <<< 3) ||| (((ulid % 256) &&& 224) >>> 5)),
   mChar ((ulid % 256) &&& 31)]

/-- `MarshalBinaryTo` (`ulid_uint128.hh`): the 16 big-endian bytes of the
scalar. -/
def MarshalBinaryTo (ulid : Nat) : List Nat :=
  [(ulid >>> 120) % 256, (ulid >>> 112) % 256, (ulid >>> 104) % 256,
   (ulid >>> 96) % 256, (ulid >>> 88) % 256, (ulid >>> 80) % 256,
   (ulid >>> 72) % 256, (ulid >>> 64) % 256, (ulid >>> 56) % 256,
   (ulid >>> 48) % 256, (ulid >>> 40) % 256, (ulid >>> 32) % 256,
   (ulid >>> 24) % 256, (ulid >>> 16) % 256, (ulid >>> 8) % 256, ulid % 256]

/-- `UnmarshalFrom` (`ulid_uint128.hh`): the `ulid <<= 8; ulid |= expr`
decode chain.  Unlike the struct version, the C `int` expressions are ORed
into the `__uint128_t` accumulator without `uint8_t` truncation. -/
def UnmarshalFrom (str : List Char) : Nat :=
  let ulid := (dec (str.getD 0 '0') <<< 5) ||| dec (str.getD 1 '0')
  let ulid := ((ulid <<< 8) % size128) |||
    ((dec (str.getD 2 '0') <<< 3) ||| (dec (str.getD 3 '0') >>> 2))
  let ulid := ((ulid <<< 8) % size128) |||
    ((dec (str.getD 3 '0') <<< 6) ||| (dec (str.getD 4 '0') <<< 1) |||
     (dec (str.getD 5 '0') >>> 4))
  let ulid := ((ulid <<< 8) % size128) |||
    ((dec (str.getD 5 '0') <<< 4) ||| (dec (str.getD 6 '0') >>> 1))
  let ulid := ((ulid <<< 8) % size128) |||
    ((dec (str.getD 6 '0') <<< 7) ||| (dec (str.getD 7 '0') <<< 2) |||
     (dec (str.getD 8 '0') >>> 3))
  let ulid := ((ulid <<< 8) % size128) |||
    ((dec (str.getD 8 '0') <<< 5) ||| dec (str.getD 9 '0'))
  let ulid := ((ulid <<< 8) % size128) |||
    ((dec (str.getD 10 '0') <<< 3) ||| (dec (str.getD 11 '0') >>> 2))
  let ulid := ((ulid <<< 8) % size128) |||
    ((dec (str.getD 11 '0') <<< 6) ||| (dec (str.getD 12 '0') <<< 1) |||
     (dec (str.getD 13 '0') >>> 4))
  let ulid := ((ulid <<< 8) % size128) |||
    ((dec (str.getD 13 '0') <<< 4) ||| (dec (str.getD 14 '0') >>> 1))
  let ulid := ((ulid <<< 8) % size128) |||
    ((dec (str.getD 14 '0') <<< 7) ||| (dec (str.getD 15 '0') <<< 2) |||
     (dec (str.getD 16 '0') >>> 3))
  let ulid := ((ulid <<< 8) % size128) |||
    ((dec (str.getD 16 '0') <<< 5) ||| dec (str.getD 17 '0'))
  let ulid := ((ulid <<< 8) % size128) |||
    ((dec (str.getD 18 '0') <<< 3) ||| (dec (str.getD 19 '0') >>> 2))
  let ulid := ((ulid <<< 8) % size128) |||
    ((dec (str.getD 19 '0') <<< 6) ||| (dec (str.getD 20 '0') <<< 1) |||
     (dec (str.getD 21 '0') >>> 4))
  let ulid := ((ulid <<< 8) % size128) |||
    ((dec (str.getD 21 '0') <<< 4) ||| (dec (str.getD 22 '0') >>> 1))
  let ulid := ((ulid <<< 8) % size128) |||
    ((dec (str.getD 22 '0') <<< 7) ||| (dec (str.getD 23 '0') <<< 2) |||
     (dec (str.getD 24 '0') >>> 3))
  let ulid := ((ulid <<< 8) % size128) |||
    ((dec (str.getD 24 '0') <<< 5) ||| dec (str.getD 25 '0'))
  ulid

/-- `UnmarshalBinaryFrom` (`ulid_uint128.hh`): big-endian byte
accumulation. -/
def UnmarshalBinaryFrom (b : List Nat) : Nat :=
  let ulid := b.getD 0 0
  let ulid := ((ulid <<< 8) % size128) ||| b.getD 1 0
  let ulid := ((ulid <<< 8) % size128) ||| b.getD 2 0
  let ulid := ((ulid <<< 8) % size128) ||| b.getD 3 0
  let ulid := ((ulid <<< 8) % size128) ||| b.getD 4 0
  let ulid := ((ulid <<< 8) % size128) ||| b.getD 5 0
  let ulid := ((ulid <<< 8) % size128) ||| b.getD 6 0
  let ulid := ((ulid <<< 8) % size128) ||| b.getD 7 0
  let ulid := ((ulid <<< 8) % size128) ||| b.getD 8 0
  let ulid := ((ulid <<< 8) % size128) ||| b.getD 9 0
  let ulid := ((ulid <<< 8) % size128) ||| b.getD 10 0
  let ulid := ((ulid <<< 8) % size128) ||| b.getD 11 0
  let ulid := ((ulid <<< 8) % size128) ||| b.getD 12 0
  let ulid := ((ulid <<< 8) % size128) ||| b.getD 13 0
  let ulid := ((ulid <<< 8) % size128) ||| b.getD 14 0
  let ulid := ((ulid <<< 8) % size128) ||| b.getD 15 0
  ulid

/-- `CompareULIDs` (`ulid_uint128.hh`):
`-2 * (ulid1 < ulid2) - 1 * (ulid1 == ulid2) + 1`. -/
def CompareULIDs (ulid1 ulid2 : Nat) : Int :=
  -2 * (if ulid1 < ulid2 then (1 : Int) else 0) -
    1 * (if ulid1 = ulid2 then (1 : Int) else 0) + 1

/-- `Time` (`ulid_uint128.hh`): millisecond extraction from the six most
significant bytes. -/
def Time (ulid : Nat) : Nat :=
  let ans := 0 ||| ((ulid >>> 120) % 256)
  let ans := (ans <<< 8) ||| ((ulid >>> 112) % 256)
  let ans := (ans <<< 8) ||| ((ulid >>> 104) % 256)
  let ans := (ans <<< 8) ||| ((ulid >>> 96) % 256)
  let ans := (ans <<< 8) ||| ((ulid >>> 88) % 256)
  let ans := (ans <<< 8) ||| ((ulid >>> 80) % 256)
  ans

end Ulid128

namespace UlidWrapper

/-- `_cpp_bytes_to_timestamp` (`ulid_wrapper.cpp`): reassembles the first
six bytes of a binary ULID into a 64-bit timestamp by the
`timestamp |= uint64(b[i]) << k` chain. -/
def cppBytesToTimestamp (b : List Nat) : Nat :=
  0 ||| (b.getD 0 0 <<< 40) ||| (b.getD 1 0 <<< 32) ||| (b.getD 2 0 <<< 24) |||
    (b.getD 3 0 <<< 16) ||| (b.getD 4 0 <<< 8) ||| b.getD 5 0

end UlidWrapper

namespace UlidStruct

/-- The first ten characters of `MarshalTo` (the timestamp region),
verbatim. -/
def tsChars (ulid : ULID) : List Char :=
  [Ulid.mChar ((ulid.data0 &&& 224) >>> 5),
   Ulid.mChar (ulid.data0 &&& 31),
   Ulid.mChar ((ulid.data1 &&& 248) >>> 3),
   Ulid.mChar (((ulid.data1 &&& 7) <<< 2) ||| ((ulid.data2 &&& 192) >>> 6)),
   Ulid.mChar ((ulid.data2 &&& 62) >>> 1),
   Ulid.mChar (((ulid.data2 &&& 1) <<< 4) ||| ((ulid.data3 &&& 240) >>> 4)),
   Ulid.mChar (((ulid.data3 &&& 15) <<< 1) ||| ((ulid.data4 &&& 128) >>> 7)),
   Ulid.mChar ((ulid.data4 &&& 124) >>> 2),
   Ulid.mChar (((ulid.data4 &&& 3) <<< 3) ||| ((ulid.data5 &&& 224) >>> 5)),
   Ulid.mChar (ulid.data5 &&& 31)]

/-- The last sixteen characters of `MarshalTo` (the entropy region),
verbatim. -/
def entropyChars (ulid : ULID) : List Char :=
  [Ulid.mChar ((ulid.data6 &&& 248) >>> 3),
   Ulid.mChar (((ulid.data6 &&& 7) <<< 2) ||| ((ulid.data7 &&& 192) >>> 6)),
   Ulid.mChar ((ulid.data7 &&& 62) >>> 1),
   Ulid.mChar (((ulid.data7 &&& 1) <<< 4) ||| ((ulid.data8 &&& 240) >>> 4)),
   Ulid.mChar (((ulid.data8 &&& 15) <<< 1) ||| ((ulid.data9 &&& 128) >>> 7)),
   Ulid.mChar ((ulid.data9 &&& 124) >>> 2),
   Ulid.mChar (((ulid.data9 &&& 3) <<< 3) ||| ((ulid.data10 &&& 224) >>> 5)),
   Ulid.mChar (ulid.data10 &&& 31),
   Ulid.mChar ((ulid.data11 &&& 248) >>> 3),
   Ulid.mChar (((ulid.data11 &&& 7) <<< 2) ||| ((ulid.data12 &&& 192) >>> 6)),
   Ulid.mChar ((ulid.data12 &&& 62) >>> 1),
   Ulid.mChar (((ulid.data12 &&& 1) <<< 4) ||| ((ulid.data13 &&& 240) >>> 4)),
   Ulid.mChar (((ulid.data13 &&& 15) <<< 1) ||| ((ulid.data14 &&& 128) >>> 7)),
   Ulid.mChar ((ulid.data14 &&& 124) >>> 2),
   Ulid.mChar (((ulid.data14 &&& 3) <<< 3) ||| ((ulid.data15 &&& 224) >>> 5)),
   Ulid.mChar (ulid.data15 &&& 31)]

/-- Recursive byte-wise lexicographic comparison returning -1, 0 or 1; the
loop form of the unrolled `CompareULIDs`. -/
def lexCmp : List Nat → List Nat → Int
  | x :: xs, y :: ys =>
    if x ≠ y then (if x < y then (1 : Int) else 0) * -2 + 1 else lexCmp xs ys
  | _, _ => 0

/-- The all-zero identifier (default-constructed `ULID`). -/
def zeroULID : ULID := ⟨0, 0, 0, 0, 0, 0, 0, 0, 0, 0, 0, 0, 0, 0, 0, 0⟩

/-- A sample identifier used to instantiate universally quantified
theorems; its first six bytes are the spec's known timestamp vector
`[0x01, 0x5D, 0x8E, 0x5C, 0x36, 0x00]`. -/
def sampleULID : ULID := ⟨1, 93, 142, 92, 54, 0, 10, 20, 30, 40, 50, 60, 70, 80, 90, 100⟩

/-- A second sample identifier differing from `sampleULID` in entropy. -/
def sampleULID2 : ULID := ⟨1, 93, 142, 92, 54, 0, 10, 20, 30, 41, 0, 0, 0, 0, 0, 0⟩

/-- A 26-character text with an out-of-alphabet byte at index 2. -/
def bangText : List Char :=
  ['0', '0', '!', '0', '0', '0', '0', '0', '0', '0', '0', '0', '0',
   '0', '0', '0', '0', '0', '0', '0', '0', '0', '0', '0', '0', '0']

/-- A 26-character text whose last byte is a lowercase letter (outside the
case-sensitive alphabet). -/
def lowercaseText : String := "0000000000000000000000000a"

end UlidStruct

namespace UlidSpec

/-- The `n` base-`B` digits of `x`, most significant first. -/
def digitsBE (B : Nat) : Nat → Nat → List Nat
  | 0, _ => []
  | n + 1, x => (x / B ^ n % B) :: digitsBE B n x

/-- The state of a byte source after `n` calls. -/
def rngState {S : Type} (rng : S → Nat × S) : Nat → S → S
  | 0, s => s
  | n + 1, s => rngState rng n (rng s).2

/-- The byte produced by call number `n + 1` of a byte source started in
state `s`. -/
def rngByte {S : Type} (rng : S → Nat × S) (n : Nat) (s : S) : Nat :=
  (rng (rngState rng n s)).1

/-- The number denoted by a big-endian byte list. -/
def natBE : List Nat → Nat
  | [] => 0
  | b :: bs => b * 256 ^ bs.length + natBE bs

end UlidSpec

namespace UlidLemmas

open Ulid UlidStruct

theorem and224 : ∀ x < 256, (x &&& 224) >>> 5 = x / 32 := by decide

theorem and31 : ∀ x < 256, x &&& 31 = x % 32 := by decide

theorem and248 : ∀ x < 256, (x &&& 248) >>> 3 = x / 8 := by decide

theorem and7 : ∀ x < 256, x &&& 7 = x % 8 := by decide

theorem and192 : ∀ x < 256, (x &&& 192) >>> 6 = x / 64 := by decide

theorem and62 : ∀ x < 256, (x &&& 62) >>> 1 = x % 64 / 2 := by decide

theorem and1 : ∀ x < 256, x &&& 1 = x % 2 := by decide

theorem and240 : ∀ x < 256, (x &&& 240) >>> 4 = x / 16 := by decide

theorem and15 : ∀ x < 256, x &&& 15 = x % 16 := by decide

theorem and128 : ∀ x < 256, (x &&& 128) >>> 7 = x / 128 := by decide

theorem and124 : ∀ x < 256, (x &&& 124) >>> 2 = x % 128 / 4 := by decide

theorem and3 : ∀ x < 256, x &&& 3 = x % 4 := by decide

/-- Decoding a character produced by the alphabet recovers its index. -/
theorem decEnc : ∀ i < 32, dec (mChar i) = i := by decide

/-- The alphabet is strictly increasing in character code, so base-32
digit order and character order agree. -/
theorem encMono : ∀ i < 32, ∀ j < 32, i < j → mChar i < mChar j := by decide

/-- Characters of the alphabet decode below 32. -/
theorem decInRange : ∀ c ∈ Encoding, dec c < 32 := by decide

/-- An index below 32 selects a character of the alphabet. -/
theorem mCharMem : ∀ i < 32, mChar i ∈ Encoding := by decide

/-- An index below 8 selects one of the digits 0-7. -/
theorem mCharDigit : ∀ i < 8, mChar i ∈ (['0', '1', '2', '3', '4', '5', '6', '7'] : List Char) := by
  decide

/-- Bitwise or is addition when the left operand vanishes below bit `n`
and the right operand lives below bit `n`. -/
theorem lor_eq_addP {n : Nat} {a b : Nat} (ha : a % 2 ^ n = 0) (hb : b < 2 ^ n) :
    a ||| b = a + b := by
  have h : 2 ^ n * (a / 2 ^ n) = a := by
    have := Nat.div_add_mod a (2 ^ n)
    omega
  calc a ||| b = 2 ^ n * (a / 2 ^ n) ||| b := by rw [h]
    _ = 2 ^ n * (a / 2 ^ n) + b := (Nat.mul_add_lt_is_or hb _).symm
    _ = a + b := by rw [h]

theorem shiftLeft_lor_distrib (a b n : Nat) : (a ||| b) <<< n = (a <<< n) ||| (b <<< n) := by
  apply Nat.eq_of_testBit_eq
  intro i
  simp [Nat.testBit_shiftLeft, Nat.testBit_or, Bool.and_or_distrib_left]

/-- ORing a 16-bit operand onto a byte-shifted accumulator adds the
operand's low byte, provided the operand's high bits are already present
in the accumulator's low byte. -/
theorem absorb_or (X op : Nat) (hop : op < 65536)
    (habs : (X % 256) ||| (op / 256) = X % 256) :
    256 * X ||| op = 256 * X + op % 256 := by
  have h1 : 65536 * (X / 256) ||| 256 * (X % 256) = 65536 * (X / 256) + 256 * (X % 256) :=
    lor_eq_addP (n := 16) (by omega) (by omega)
  have hAor : 65536 * (X / 256) ||| 256 * (X % 256) = 256 * X := by
    rw [h1]; omega
  have h2 : 256 * (op / 256) ||| op % 256 = 256 * (op / 256) + op % 256 :=
    lor_eq_addP (n := 8) (by omega) (by omega)
  have hop' : 256 * (op / 256) ||| op % 256 = op := by
    rw [h2]; omega
  have hBC : 256 * (X % 256) ||| 256 * (op / 256) = 256 * (X % 256) := by
    have e1 : 256 * (X % 256) = (X % 256) <<< 8 := by rw [Nat.shiftLeft_eq]; omega
    have e2 : 256 * (op / 256) = (op / 256) <<< 8 := by rw [Nat.shiftLeft_eq]; omega
    rw [e1, e2, ← shiftLeft_lor_distrib, habs]
  have step1 : 256 * X ||| op =
      (65536 * (X / 256) ||| 256 * (X % 256)) ||| (256 * (op / 256) ||| op % 256) := by
    rw [hAor, hop']
  rw [step1, Nat.or_assoc, ← Nat.or_assoc (256 * (X % 256)), hBC]
  have hin : 256 * (X % 256) ||| op % 256 = 256 * (X % 256) + op % 256 :=
    lor_eq_addP (n := 8) (by omega) (by omega)
  rw [hin]
  have hout : 65536 * (X / 256) ||| (256 * (X % 256) + op % 256) =
      65536 * (X / 256) + (256 * (X % 256) + op % 256) :=
    lor_eq_addP (n := 16) (by omega) (by omega)
  rw [hout]
  omega

/-- One `ulid <<= 8; ulid |= op` step of the `__uint128_t` decoder,
for a 16-bit operand whose spill bits are absorbed by the accumulator. -/
theorem chain_step128 (v op : Nat) (hop : op < 65536)
    (habs : (v % 256) ||| (op / 256) = v % 256) :
    ((v <<< 8) % Ulid128.size128) ||| op = 256 * (v % 2 ^ 120) + op % 256 := by
  have h1 : (v <<< 8) % Ulid128.size128 = 256 * (v % 2 ^ 120) := by
    rw [Nat.shiftLeft_eq]
    unfold Ulid128.size128
    omega
  rw [h1]
  have habs' : ((v % 2 ^ 120) % 256) ||| (op / 256) = (v % 2 ^ 120) % 256 := by
    have hmm : (v % 2 ^ 120) % 256 = v % 256 := by omega
    rw [hmm]
    exact habs
  exact absorb_or (v % 2 ^ 120) op hop habs'

/-- One `ulid <<= 8; ulid |= op` step for a byte-sized operand. -/
theorem chain_step_small (v op : Nat) (hv : v < 2 ^ 120) (hop : op < 256) :
    ((v <<< 8) % Ulid128.size128) ||| op = 256 * v + op := by
  have h := chain_step128 v op (by omega) (by rw [Nat.div_eq_of_lt hop, Nat.or_zero])
  rw [h]
  omega

/-- Absorption of a small value into a sum that already contains it. -/
theorem absorb_low {n : Nat} (A s : Nat) (hA : A % 2 ^ n = 0) (hs : s < 2 ^ n) :
    (A + s) ||| s = A + s := by
  rw [← lor_eq_addP hA hs, Nat.or_assoc, Nat.or_self]

/-- `chain_step128` when the accumulator still fits in 120 bits. -/
theorem chain_step_spill (v op : Nat) (hv : v < 2 ^ 120) (hop : op < 65536)
    (habs : (v % 256) ||| (op / 256) = v % 256) :
    ((v <<< 8) % Ulid128.size128) ||| op = 256 * v + op % 256 := by
  rw [chain_step128 v op hop habs]
  omega

theorem boundStep (W X c : Nat) (hW : W < c) (hX : X < 256) : 256 * W + X < 256 * c := by
  omega

/-- A spilling chain step, with the accumulator's low byte named
explicitly so that every side condition stays small. -/
theorem chain_step_spill2 (v op X W L : Nat) (hvW : v = 256 * W + L) (hL : L < 256)
    (hop : op < 65536) (hX : op % 256 = X) (habs : L ||| op / 256 = L)
    (hv : v < 2 ^ 120) :
    ((v <<< 8) % Ulid128.size128) ||| op = 256 * v + X := by
  have habs' : (v % 256) ||| (op / 256) = v % 256 := by
    have hlow : v % 256 = L := by omega
    rw [hlow]
    exact habs
  rw [chain_step128 v op hop habs']
  omega

/-- The last chain step, where the shifted accumulator is truncated to
128 bits. -/
theorem chain_step_final (v op X W L : Nat) (hvW : v = 256 * W + L) (hL : L < 256)
    (hop : op < 65536) (hX : op % 256 = X) (habs : L ||| op / 256 = L) :
    ((v <<< 8) % Ulid128.size128) ||| op = 256 * (v % 2 ^ 120) + X := by
  have habs' : (v % 256) ||| (op / 256) = v % 256 := by
    have hlow : v % 256 = L := by omega
    rw [hlow]
    exact habs
  rw [chain_step128 v op hop habs']
  omega

theorem mA (x : Nat) (hx : x < 256) : (x &&& 224) >>> 5 = x / 32 := and224 x hx

theorem mB (x : Nat) (hx : x < 256) : x &&& 31 = x % 32 := and31 x hx

theorem mC (x : Nat) (hx : x < 256) : (x &&& 248) >>> 3 = x / 8 := and248 x hx

theorem mD (x y : Nat) (hx : x < 256) (hy : y < 256) :
    ((x &&& 7) <<< 2) ||| ((y &&& 192) >>> 6) = 4 * (x % 8) + y / 64 := by
  rw [and7 x hx, and192 y hy, Nat.shiftLeft_eq,
    lor_eq_addP (n := 2) (by omega) (by omega)]
  omega

theorem mE (x : Nat) (hx : x < 256) : (x &&& 62) >>> 1 = x % 64 / 2 := and62 x hx

theorem mF (x y : Nat) (hx : x < 256) (hy : y < 256) :
    ((x &&& 1) <<< 4) ||| ((y &&& 240) >>> 4) = 16 * (x % 2) + y / 16 := by
  rw [and1 x hx, and240 y hy, Nat.shiftLeft_eq,
    lor_eq_addP (n := 4) (by omega) (by omega)]
  omega

theorem mG (x y : Nat) (hx : x < 256) (hy : y < 256) :
    ((x &&& 15) <<< 1) ||| ((y &&& 128) >>> 7) = 2 * (x % 16) + y / 128 := by
  rw [and15 x hx, and128 y hy, Nat.shiftLeft_eq,
    lor_eq_addP (n := 1) (by omega) (by omega)]
  omega

theorem mH (x : Nat) (hx : x < 256) : (x &&& 124) >>> 2 = x % 128 / 4 := and124 x hx

theorem mI (x y : Nat) (hx : x < 256) (hy : y < 256) :
    ((x &&& 3) <<< 3) ||| ((y &&& 224) >>> 5) = 8 * (x % 4) + y / 32 := by
  rw [and3 x hx, and224 y hy, Nat.shiftLeft_eq,
    lor_eq_addP (n := 3) (by omega) (by omega)]
  omega

theorem opA (e f : Nat) (he : e < 32) (hf : f < 32) : (e <<< 5) ||| f = 32 * e + f := by
  rw [Nat.shiftLeft_eq, lor_eq_addP (n := 5) (by omega) (by omega)]
  omega

theorem opB (e f : Nat) (he : e < 32) (hf : f < 32) :
    (e <<< 3) ||| (f >>> 2) = 8 * e + f / 4 := by
  rw [Nat.shiftLeft_eq, Nat.shiftRight_eq_div_pow,
    lor_eq_addP (n := 3) (by omega) (by omega)]
  omega

theorem opC (e f g : Nat) (he : e < 32) (hf : f < 32) (hg : g < 32) :
    (e <<< 6) ||| (f <<< 1) ||| (g >>> 4) = 64 * e + 2 * f + g / 16 := by
  rw [Nat.shiftLeft_eq, Nat.shiftLeft_eq, Nat.shiftRight_eq_div_pow]
  have h1 : e * 2 ^ 6 ||| f * 2 ^ 1 = e * 2 ^ 6 + f * 2 ^ 1 :=
    lor_eq_addP (n := 6) (by omega) (by omega)
  rw [h1]
  have h2 : e * 2 ^ 6 + f * 2 ^ 1 ||| g / 2 ^ 4 = e * 2 ^ 6 + f * 2 ^ 1 + g / 2 ^ 4 :=
    lor_eq_addP (n := 1) (by omega) (by omega)
  rw [h2]
  omega

theorem opD (e f : Nat) (he : e < 32) (hf : f < 32) :
    (e <<< 4) ||| (f >>> 1) = 16 * e + f / 2 := by
  rw [Nat.shiftLeft_eq, Nat.shiftRight_eq_div_pow,
    lor_eq_addP (n := 4) (by omega) (by omega)]
  omega

theorem opE (e f g : Nat) (he : e < 32) (hf : f < 32) (hg : g < 32) :
    (e <<< 7) ||| (f <<< 2) ||| (g >>> 3) = 128 * e + 4 * f + g / 8 := by
  rw [Nat.shiftLeft_eq, Nat.shiftLeft_eq, Nat.shiftRight_eq_div_pow]
  have h1 : e * 2 ^ 7 ||| f * 2 ^ 2 = e * 2 ^ 7 + f * 2 ^ 2 :=
    lor_eq_addP (n := 7) (by omega) (by omega)
  rw [h1]
  have h2 : e * 2 ^ 7 + f * 2 ^ 2 ||| g / 2 ^ 3 = e * 2 ^ 7 + f * 2 ^ 2 + g / 2 ^ 3 :=
    lor_eq_addP (n := 2) (by omega) (by omega)
  rw [h2]
  omega

/-- The unrolled comparison is the byte-list comparison loop. -/
theorem compare_eq_lexCmp (a b : ULID) : CompareULIDs a b = lexCmp a.bytes b.bytes := rfl

theorem lexCmp_trichotomy : ∀ xs ys : List Nat,
    lexCmp xs ys = -1 ∨ lexCmp xs ys = 0 ∨ lexCmp xs ys = 1 := by
  intro xs
  induction xs with
  | nil => intro ys; cases ys <;> simp [lexCmp]
  | cons x xs ih =>
    intro ys
    cases ys with
    | nil => simp [lexCmp]
    | cons y ys =>
      simp only [lexCmp]
      split_ifs with h1 h2
      · omega
      · omega
      · exact ih ys

theorem lexCmp_eq_zero_iff : ∀ xs ys : List Nat, xs.length = ys.length →
    (lexCmp xs ys = 0 ↔ xs = ys) := by
  intro xs
  induction xs with
  | nil =>
    intro ys h
    cases ys with
    | nil => simp [lexCmp]
    | cons y ys => simp at h
  | cons x xs ih =>
    intro ys h
    cases ys with
    | nil => simp at h
    | cons y ys =>
      simp only [lexCmp, List.cons.injEq]
      split_ifs with h1 h2
      · constructor
        · intro hv
          exfalso
          omega
        · intro hv
          exact absurd hv.1 h1
      · constructor
        · intro hv
          exfalso
          omega
        · intro hv
          exact absurd hv.1 h1
      · push_neg at h1
        subst h1
        simp only [true_and]
        exact ih ys (by simpa using h)

theorem lexCmp_first_diff : ∀ xs ys : List Nat, ∀ k : Nat, xs.length = ys.length →
    (∀ j, j < k → xs.getD j 0 = ys.getD j 0) → xs.getD k 0 ≠ ys.getD k 0 →
    lexCmp xs ys = if xs.getD k 0 < ys.getD k 0 then -1 else 1 := by
  intro xs
  induction xs with
  | nil =>
    intro ys k hlen hpre hne
    cases ys with
    | nil => simp [List.getD] at hne
    | cons y ys => simp at hlen
  | cons x xs ih =>
    intro ys k hlen hpre hne
    cases ys with
    | nil => simp at hlen
    | cons y ys =>
      cases k with
      | zero =>
        simp only [List.getD_cons_zero] at hne ⊢
        simp only [lexCmp, if_pos hne]
        split_ifs with h2 <;> omega
      | succ k =>
        have hx : x = y := by simpa using hpre 0 (Nat.succ_pos k)
        simp only [List.getD_cons_succ] at hne ⊢
        simp only [lexCmp]
        rw [if_neg (by simp [hx])]
        refine ih ys k (by simpa using hlen) ?_ hne
        intro j hj
        simpa using hpre (j + 1) (by omega)

/-- Disjoint shift/or accumulation of the six timestamp bytes. -/
theorem bytes_to_ts (b0 b1 b2 b3 b4 b5 : Nat) (h0 : b0 < 256) (h1 : b1 < 256)
    (h2 : b2 < 256) (h3 : b3 < 256) (h4 : b4 < 256) (h5 : b5 < 256) :
    0 ||| (b0 <<< 40) ||| (b1 <<< 32) ||| (b2 <<< 24) ||| (b3 <<< 16) ||| (b4 <<< 8) ||| b5 =
      b0 * 2 ^ 40 + b1 * 2 ^ 32 + b2 * 2 ^ 24 + b3 * 2 ^ 16 + b4 * 2 ^ 8 + b5 := by
  rw [Nat.zero_or, Nat.shiftLeft_eq, Nat.shiftLeft_eq, Nat.shiftLeft_eq, Nat.shiftLeft_eq,
    Nat.shiftLeft_eq]
  have s1 : b0 * 2 ^ 40 ||| b1 * 2 ^ 32 = b0 * 2 ^ 40 + b1 * 2 ^ 32 :=
    lor_eq_addP (n := 40) (by omega) (by omega)
  rw [s1]
  have s2 : b0 * 2 ^ 40 + b1 * 2 ^ 32 ||| b2 * 2 ^ 24 =
      b0 * 2 ^ 40 + b1 * 2 ^ 32 + b2 * 2 ^ 24 :=
    lor_eq_addP (n := 32) (by omega) (by omega)
  rw [s2]
  have s3 : b0 * 2 ^ 40 + b1 * 2 ^ 32 + b2 * 2 ^ 24 ||| b3 * 2 ^ 16 =
      b0 * 2 ^ 40 + b1 * 2 ^ 32 + b2 * 2 ^ 24 + b3 * 2 ^ 16 :=
    lor_eq_addP (n := 24) (by omega) (by omega)
  rw [s3]
  have s4 : b0 * 2 ^ 40 + b1 * 2 ^ 32 + b2 * 2 ^ 24 + b3 * 2 ^ 16 ||| b4 * 2 ^ 8 =
      b0 * 2 ^ 40 + b1 * 2 ^ 32 + b2 * 2 ^ 24 + b3 * 2 ^ 16 + b4 * 2 ^ 8 :=
    lor_eq_addP (n := 16) (by omega) (by omega)
  rw [s4]
  have s5 : b0 * 2 ^ 40 + b1 * 2 ^ 32 + b2 * 2 ^ 24 + b3 * 2 ^ 16 + b4 * 2 ^ 8 ||| b5 =
      b0 * 2 ^ 40 + b1 * 2 ^ 32 + b2 * 2 ^ 24 + b3 * 2 ^ 16 + b4 * 2 ^ 8 + b5 :=
    lor_eq_addP (n := 8) (by omega) (by omega)
  rw [s5]

end UlidLemmas

open Ulid UlidStruct UlidSpec UlidLemmas

/-- C9 (counterexample): encoding the all-zero identifier does not return
the 25-character string claimed; the encoder always emits 26 characters. -/
theorem ulid_zero_text_counterexample :
    Marshal zeroULID ≠ "0000000000000000000000000" := by decide

/-- C9 (amended): encoding the all-zero identifier (timestamp 0 and
all-zero entropy) to text returns exactly the 26-character string
"00000000000000000000000000". -/
theorem ulid_zero_text : Marshal zeroULID = "00000000000000000000000000" := by decide

/-- C5 (code evaluation at the failing input): the reference decoder does
not validate: the lowercase byte 'a' maps to the 0xFF invalid sentinel in
the decode table, yet decoding the 26-character text ending in 'a' still
returns an identifier (with the sentinel bits ORed into its last byte)
rather than failing. -/
theorem ulid_decode_unvalidated :
    dec 'a' = 0xFF ∧
    Unmarshal lowercaseText = ⟨0, 0, 0, 0, 0, 0, 0, 0, 0, 0, 0, 0, 0, 0, 0, 255⟩ := by
  decide

/-- C7: `EncodeTimestamp` leaves the entropy bytes 6-15 unchanged, and
`EncodeEntropy` leaves the timestamp bytes 0-5 unchanged, calls the
supplied byte source exactly ten times and writes the ten results in call
order into bytes 6-15 (returning the state after the tenth call). -/
theorem ulid_encode_frame {S : Type} (rng : S → Nat × S) (s : S) (t : Nat) (u : ULID) :
    ((EncodeTimestamp t u).data6 = u.data6 ∧ (EncodeTimestamp t u).data7 = u.data7 ∧
     (EncodeTimestamp t u).data8 = u.data8 ∧ (EncodeTimestamp t u).data9 = u.data9 ∧
     (EncodeTimestamp t u).data10 = u.data10 ∧ (EncodeTimestamp t u).data11 = u.data11 ∧
     (EncodeTimestamp t u).data12 = u.data12 ∧ (EncodeTimestamp t u).data13 = u.data13 ∧
     (EncodeTimestamp t u).data14 = u.data14 ∧ (EncodeTimestamp t u).data15 = u.data15) ∧
    ((EncodeEntropy rng s u).1.data0 = u.data0 ∧ (EncodeEntropy rng s u).1.data1 = u.data1 ∧
     (EncodeEntropy rng s u).1.data2 = u.data2 ∧ (EncodeEntropy rng s u).1.data3 = u.data3 ∧
     (EncodeEntropy rng s u).1.data4 = u.data4 ∧ (EncodeEntropy rng s u).1.data5 = u.data5) ∧
    ((EncodeEntropy rng s u).1.data6 = rngByte rng 0 s ∧
     (EncodeEntropy rng s u).1.data7 = rngByte rng 1 s ∧
     (EncodeEntropy rng s u).1.data8 = rngByte rng 2 s ∧
     (EncodeEntropy rng s u).1.data9 = rngByte rng 3 s ∧
     (EncodeEntropy rng s u).1.data10 = rngByte rng 4 s ∧
     (EncodeEntropy rng s u).1.data11 = rngByte rng 5 s ∧
     (EncodeEntropy rng s u).1.data12 = rngByte rng 6 s ∧
     (EncodeEntropy rng s u).1.data13 = rngByte rng 7 s ∧
     (EncodeEntropy rng s u).1.data14 = rngByte rng 8 s ∧
     (EncodeEntropy rng s u).1.data15 = rngByte rng 9 s) ∧
    (EncodeEntropy rng s u).2 = rngState rng 10 s := by
  exact ⟨⟨rfl, rfl, rfl, rfl, rfl, rfl, rfl, rfl, rfl, rfl⟩,
    ⟨rfl, rfl, rfl, rfl, rfl, rfl⟩,
    ⟨rfl, rfl, rfl, rfl, rfl, rfl, rfl, rfl, rfl, rfl⟩, rfl⟩

/-- C10: every character the text encoder produces is one of the 32
alphabet symbols, and the first character is always one of '0'-'7'
(its index uses only the top three bits of byte 0). -/
theorem ulid_marshal_alphabet (u : ULID) (h : u.Wf) :
    (∀ c ∈ MarshalTo u, c ∈ Encoding) ∧
    (MarshalTo u).getD 0 '0' ∈ (['0', '1', '2', '3', '4', '5', '6', '7'] : List Char) := by
  obtain ⟨h0, h1, h2, h3, h4, h5, h6, h7, h8, h9, h10, h11, h12, h13, h14, h15⟩ := h
  constructor
  · simp only [MarshalTo, List.forall_mem_cons]
    refine ⟨mCharMem _ (by rw [mA u.data0 h0]; omega),
      mCharMem _ (by rw [mB u.data0 h0]; omega),
      mCharMem _ (by rw [mC u.data1 h1]; omega),
      mCharMem _ (by rw [mD u.data1 u.data2 h1 h2]; omega),
      mCharMem _ (by rw [mE u.data2 h2]; omega),
      mCharMem _ (by rw [mF u.data2 u.data3 h2 h3]; omega),
      mCharMem _ (by rw [mG u.data3 u.data4 h3 h4]; omega),
      mCharMem _ (by rw [mH u.data4 h4]; omega),
      mCharMem _ (by rw [mI u.data4 u.data5 h4 h5]; omega),
      mCharMem _ (by rw [mB u.data5 h5]; omega),
      mCharMem _ (by rw [mC u.data6 h6]; omega),
      mCharMem _ (by rw [mD u.data6 u.data7 h6 h7]; omega),
      mCharMem _ (by rw [mE u.data7 h7]; omega),
      mCharMem _ (by rw [mF u.data7 u.data8 h7 h8]; omega),
      mCharMem _ (by rw [mG u.data8 u.data9 h8 h9]; omega),
      mCharMem _ (by rw [mH u.data9 h9]; omega),
      mCharMem _ (by rw [mI u.data9 u.data10 h9 h10]; omega),
      mCharMem _ (by rw [mB u.data10 h10]; omega),
      mCharMem _ (by rw [mC u.data11 h11]; omega),
      mCharMem _ (by rw [mD u.data11 u.data12 h11 h12]; omega),
      mCharMem _ (by rw [mE u.data12 h12]; omega),
      mCharMem _ (by rw [mF u.data12 u.data13 h12 h13]; omega),
      mCharMem _ (by rw [mG u.data13 u.data14 h13 h14]; omega),
      mCharMem _ (by rw [mH u.data14 h14]; omega),
      mCharMem _ (by rw [mI u.data14 u.data15 h14 h15]; omega),
      mCharMem _ (by rw [mB u.data15 h15]; omega), ?_⟩
    simp
  · simp only [MarshalTo, List.getD_cons_zero]
    exact mCharDigit _ (by rw [mA u.data0 h0]; omega)

/-- C10 witness at a concrete identifier. -/
theorem ulid_marshal_alphabet_witness :
    sampleULID.Wf ∧ (∀ c ∈ MarshalTo sampleULID, c ∈ Encoding) :=
  ⟨by decide, (ulid_marshal_alphabet sampleULID (by decide)).1⟩

/-- C4: extracting the timestamp (via `_cpp_bytes_to_timestamp` applied to
the marshalled bytes) after `EncodeTimestamp` returns `t mod 2^48`; in
particular it returns `t` itself whenever `t < 2^48`, and the extracted
value always has its top 16 bits zero. -/
theorem ulid_timestamp_roundtrip (t : Nat) (ht : t < 2 ^ 64) (u : ULID) :
    UlidWrapper.cppBytesToTimestamp (MarshalBinaryTo (EncodeTimestamp t u)) = t % 2 ^ 48 ∧
    (t < 2 ^ 48 → UlidWrapper.cppBytesToTimestamp (MarshalBinaryTo (EncodeTimestamp t u)) = t) ∧
    UlidWrapper.cppBytesToTimestamp (MarshalBinaryTo (EncodeTimestamp t u)) < 2 ^ 48 := by
  have key : UlidWrapper.cppBytesToTimestamp (MarshalBinaryTo (EncodeTimestamp t u)) =
      t % 2 ^ 48 := by
    simp only [UlidWrapper.cppBytesToTimestamp, MarshalBinaryTo, ULID.bytes, EncodeTimestamp,
      List.getD_cons_zero, List.getD_cons_succ]
    rw [bytes_to_ts _ _ _ _ _ _ (by omega) (by omega) (by omega) (by omega) (by omega)
      (by omega)]
    simp only [Nat.shiftRight_eq_div_pow]
    omega
  exact ⟨key, fun h => by rw [key]; omega, by rw [key]; omega⟩

/-- C4 witness at a concrete timestamp and identifier. -/
theorem ulid_timestamp_roundtrip_witness :
    (1469918176385 : Nat) < 2 ^ 64 ∧
    UlidWrapper.cppBytesToTimestamp
      (MarshalBinaryTo (EncodeTimestamp 1469918176385 sampleULID)) = 1469918176385 :=
  ⟨by norm_num,
   (ulid_timestamp_roundtrip 1469918176385 (by norm_num) sampleULID).2.1 (by norm_num)⟩

/-- C6: `CompareULIDs` returns a value in -1, 0, 1; it returns 0 exactly
when the two identifiers agree on all 16 bytes, and otherwise the first
(lowest-index) differing byte decides the result by unsigned order. -/
theorem ulid_compare_spec (a b : ULID) :
    (CompareULIDs a b = -1 ∨ CompareULIDs a b = 0 ∨ CompareULIDs a b = 1) ∧
    (CompareULIDs a b = 0 ↔ a = b) ∧
    (∀ k, k < 16 → (∀ j, j < k → a.bytes.getD j 0 = b.bytes.getD j 0) →
      a.bytes.getD k 0 ≠ b.bytes.getD k 0 →
      CompareULIDs a b = if a.bytes.getD k 0 < b.bytes.getD k 0 then -1 else 1) := by
  have hlen : a.bytes.length = b.bytes.length := rfl
  have hbeq : a.bytes = b.bytes ↔ a = b := by
    obtain ⟨a0, a1, a2, a3, a4, a5, a6, a7, a8, a9, a10, a11, a12, a13, a14, a15⟩ := a
    obtain ⟨b0, b1, b2, b3, b4, b5, b6, b7, b8, b9, b10, b11, b12, b13, b14, b15⟩ := b
    simp [ULID.bytes, ULID.mk.injEq]
  refine ⟨?_, ?_, ?_⟩
  · rw [compare_eq_lexCmp]
    exact lexCmp_trichotomy _ _
  · rw [compare_eq_lexCmp, lexCmp_eq_zero_iff _ _ hlen]
    exact hbeq
  · intro k hk hpre hne
    rw [compare_eq_lexCmp]
    exact lexCmp_first_diff _ _ k hlen hpre hne

/-- C6 witness: two concrete identifiers first differing at byte 9. -/
theorem ulid_compare_spec_witness :
    CompareULIDs sampleULID sampleULID2 =
      if sampleULID.bytes.getD 9 0 < sampleULID2.bytes.getD 9 0 then -1 else 1 :=
  (ulid_compare_spec sampleULID sampleULID2).2.2 9 (by omega) (by decide) (by decide)

/-- String wrappers reduce to the character-list codecs. -/
theorem unmarshal_marshal_eq (u : ULID) :
    Unmarshal (Marshal u) = UnmarshalFrom (MarshalTo u) := rfl

/-- C1: decoding the text produced by encoding returns the identifier
unchanged: the 26-character base-32 bit-slicing encode composed with the
inverse bit-slicing decode is the identity on all byte-valued identifiers. -/
theorem ulid_text_roundtrip (u : ULID) (h : u.Wf) : Unmarshal (Marshal u) = u := by
  rw [unmarshal_marshal_eq]
  obtain ⟨d0, d1, d2, d3, d4, d5, d6, d7, d8, d9, d10, d11, d12, d13, d14, d15⟩ := u
  obtain ⟨h0, h1, h2, h3, h4, h5, h6, h7, h8, h9, h10, h11, h12, h13, h14, h15⟩ := h
  dsimp only at h0 h1 h2 h3 h4 h5 h6 h7 h8 h9 h10 h11 h12 h13 h14 h15
  simp only [UnmarshalFrom, MarshalTo, List.getD_cons_zero, List.getD_cons_succ]
  rw [mA d0 h0, mB d0 h0, mC d1 h1, mD d1 d2 h1 h2, mE d2 h2, mF d2 d3 h2 h3,
    mG d3 d4 h3 h4, mH d4 h4, mI d4 d5 h4 h5, mB d5 h5,
    mC d6 h6, mD d6 d7 h6 h7, mE d7 h7, mF d7 d8 h7 h8, mG d8 d9 h8 h9,
    mH d9 h9, mI d9 d10 h9 h10, mB d10 h10, mC d11 h11, mD d11 d12 h11 h12,
    mE d12 h12, mF d12 d13 h12 h13, mG d13 d14 h13 h14, mH d14 h14,
    mI d14 d15 h14 h15, mB d15 h15]
  rw [decEnc (d0 / 32) (by omega), decEnc (d0 % 32) (by omega),
    decEnc (d1 / 8) (by omega), decEnc (4 * (d1 % 8) + d2 / 64) (by omega),
    decEnc (d2 % 64 / 2) (by omega), decEnc (16 * (d2 % 2) + d3 / 16) (by omega),
    decEnc (2 * (d3 % 16) + d4 / 128) (by omega), decEnc (d4 % 128 / 4) (by omega),
    decEnc (8 * (d4 % 4) + d5 / 32) (by omega), decEnc (d5 % 32) (by omega),
    decEnc (d6 / 8) (by omega), decEnc (4 * (d6 % 8) + d7 / 64) (by omega),
    decEnc (d7 % 64 / 2) (by omega), decEnc (16 * (d7 % 2) + d8 / 16) (by omega),
    decEnc (2 * (d8 % 16) + d9 / 128) (by omega), decEnc (d9 % 128 / 4) (by omega),
    decEnc (8 * (d9 % 4) + d10 / 32) (by omega), decEnc (d10 % 32) (by omega),
    decEnc (d11 / 8) (by omega), decEnc (4 * (d11 % 8) + d12 / 64) (by omega),
    decEnc (d12 % 64 / 2) (by omega), decEnc (16 * (d12 % 2) + d13 / 16) (by omega),
    decEnc (2 * (d13 % 16) + d14 / 128) (by omega), decEnc (d14 % 128 / 4) (by omega),
    decEnc (8 * (d14 % 4) + d15 / 32) (by omega), decEnc (d15 % 32) (by omega)]
  simp only [ULID.mk.injEq]
  refine ⟨?_, ?_, ?_, ?_, ?_, ?_, ?_, ?_, ?_, ?_, ?_, ?_, ?_, ?_, ?_, ?_⟩
  · rw [opA _ _ (by omega) (by omega)]
    omega
  · rw [opB _ _ (by omega) (by omega)]
    omega
  · rw [opC _ _ _ (by omega) (by omega) (by omega)]
    omega
  · rw [opD _ _ (by omega) (by omega)]
    omega
  · rw [opE _ _ _ (by omega) (by omega) (by omega)]
    omega
  · rw [opA _ _ (by omega) (by omega)]
    omega
  · rw [opB _ _ (by omega) (by omega)]
    omega
  · rw [opC _ _ _ (by omega) (by omega) (by omega)]
    omega
  · rw [opD _ _ (by omega) (by omega)]
    omega
  · rw [opE _ _ _ (by omega) (by omega) (by omega)]
    omega
  · rw [opA _ _ (by omega) (by omega)]
    omega
  · rw [opB _ _ (by omega) (by omega)]
    omega
  · rw [opC _ _ _ (by omega) (by omega) (by omega)]
    omega
  · rw [opD _ _ (by omega) (by omega)]
    omega
  · rw [opE _ _ _ (by omega) (by omega) (by omega)]
    omega
  · rw [opA _ _ (by omega) (by omega)]
    omega

/-- C1 witness at a concrete identifier. -/
theorem ulid_text_roundtrip_witness :
    sampleULID.Wf ∧ Unmarshal (Marshal sampleULID) = sampleULID :=
  ⟨by decide, ulid_text_roundtrip sampleULID (by decide)⟩

theorem digitsBE_mod (B : Nat) : ∀ n k : Nat, n ≤ k → ∀ x : Nat,
    digitsBE B n (x % B ^ k) = digitsBE B n x := by
  intro n
  induction n with
  | zero => intro k hk x; rfl
  | succ n ih =>
    intro k hk x
    simp only [digitsBE]
    have hhead : x % B ^ k / B ^ n % B = x / B ^ n % B := by
      have hsplit : B ^ k = B ^ n * B ^ (k - n) := by
        rw [← pow_add]
        congr 1
        omega
      rw [hsplit, Nat.mod_mul_right_div_self]
      exact Nat.mod_mod_of_dvd _ (dvd_pow_self B (by omega))
    rw [hhead, ih k (by omega) x]

theorem digitsBE_lt (B : Nat) (hB : 0 < B) : ∀ n x : Nat, ∀ d ∈ digitsBE B n x, d < B := by
  intro n
  induction n with
  | zero => intro x d hd; simp [digitsBE] at hd
  | succ n ih =>
    intro x d hd
    simp only [digitsBE, List.mem_cons] at hd
    rcases hd with rfl | hd
    · exact Nat.mod_lt _ hB
    · exact ih x d hd

theorem digitsBE_length (B : Nat) : ∀ n x : Nat, (digitsBE B n x).length = n := by
  intro n
  induction n with
  | zero => intro x; rfl
  | succ n ih => intro x; simp [digitsBE, ih]

/-- Fixed-width big-endian digit lists compare lexicographically exactly
as the underlying numbers compare. -/
theorem digitsBE_lex (B : Nat) (hB : 1 < B) : ∀ n a b : Nat, a < b → b < B ^ n →
    List.Lex (· < ·) (digitsBE B n a) (digitsBE B n b) := by
  intro n
  induction n with
  | zero =>
    intro a b hab hb
    simp only [pow_zero] at hb
    omega
  | succ n ih =>
    intro a b hab hb
    simp only [digitsBE]
    have hbpos : 0 < B ^ n := pow_pos (by omega) n
    rcases Nat.lt_or_ge (a / B ^ n) (b / B ^ n) with hdiv | hdiv
    · apply List.Lex.rel
      have hbB : b / B ^ n < B := by
        apply Nat.div_lt_of_lt_mul
        rwa [pow_succ] at hb
      have haB : a / B ^ n < B := Nat.lt_of_le_of_lt (Nat.div_le_div_right hab.le) hbB
      rw [Nat.mod_eq_of_lt haB, Nat.mod_eq_of_lt hbB]
      exact hdiv
    · have heq : a / B ^ n = b / B ^ n := Nat.le_antisymm (Nat.div_le_div_right hab.le) hdiv
      rw [heq]
      apply List.Lex.cons
      rw [← digitsBE_mod B n n le_rfl a, ← digitsBE_mod B n n le_rfl b]
      apply ih
      · have ha' := Nat.div_add_mod a (B ^ n)
        have hb' := Nat.div_add_mod b (B ^ n)
        rw [heq] at ha'
        omega
      · exact Nat.mod_lt _ hbpos

/-- Mapping digit lists through the order-preserving alphabet keeps
lexicographic order. -/
theorem lex_map_mChar {l1 l2 : List Nat} (h : List.Lex (· < ·) l1 l2) :
    (∀ x ∈ l1, x < 32) → (∀ x ∈ l2, x < 32) →
    List.Lex (· < ·) (l1.map mChar) (l2.map mChar) := by
  induction h with
  | nil =>
    intro _ _
    simp only [List.map_nil, List.map_cons]
    exact List.Lex.nil
  | @cons a l1' l2' hlex ih =>
    intro hm1 hm2
    simp only [List.map_cons]
    exact List.Lex.cons (ih (fun x hx => hm1 x (List.mem_cons_of_mem a hx))
      (fun x hx => hm2 x (List.mem_cons_of_mem a hx)))
  | @rel a l1' b l2' hr =>
    intro hm1 hm2
    simp only [List.map_cons]
    exact List.Lex.rel (encMono a (hm1 a (List.mem_cons_self a l1')) b
      (hm2 b (List.mem_cons_self b l2')) hr)

/-- Lexicographic order on equal-length prefixes survives appending
arbitrary suffixes. -/
theorem lex_append (r s : List Char) : ∀ {l1 l2 : List Char},
    List.Lex (· < ·) l1 l2 → l1.length = l2.length →
    List.Lex (· < ·) (l1 ++ r) (l2 ++ s) := by
  intro l1 l2 h
  induction h with
  | nil =>
    intro hlen
    simp at hlen
  | @cons a l1' l2' hlex ih =>
    intro hlen
    simp only [List.cons_append]
    exact List.Lex.cons (ih (by simpa using hlen))
  | @rel a l1' b l2' hr =>
    intro hlen
    simp only [List.cons_append]
    exact List.Lex.rel hr

theorem digitsBE_ten (t : Nat) :
    digitsBE 32 10 t = [t / 32 ^ 9 % 32, t / 32 ^ 8 % 32, t / 32 ^ 7 % 32, t / 32 ^ 6 % 32,
      t / 32 ^ 5 % 32, t / 32 ^ 4 % 32, t / 32 ^ 3 % 32, t / 32 ^ 2 % 32, t / 32 ^ 1 % 32,
      t / 32 ^ 0 % 32] := rfl

theorem dig0 (t : Nat) (ht : t < 2 ^ 48) :
    (((t >>> 40) % 256) &&& 224) >>> 5 = t / 32 ^ 9 % 32 := by
  rw [and224 _ (by omega), Nat.shiftRight_eq_div_pow]
  omega

theorem dig1 (t : Nat) (ht : t < 2 ^ 48) : ((t >>> 40) % 256) &&& 31 = t / 32 ^ 8 % 32 := by
  rw [and31 _ (by omega), Nat.shiftRight_eq_div_pow]
  omega

theorem dig2 (t : Nat) (ht : t < 2 ^ 48) :
    (((t >>> 32) % 256) &&& 248) >>> 3 = t / 32 ^ 7 % 32 := by
  rw [and248 _ (by omega), Nat.shiftRight_eq_div_pow]
  omega

theorem dig3 (t : Nat) (ht : t < 2 ^ 48) :
    ((((t >>> 32) % 256) &&& 7) <<< 2) ||| ((((t >>> 24) % 256) &&& 192) >>> 6) =
      t / 32 ^ 6 % 32 := by
  rw [mD _ _ (by omega) (by omega), Nat.shiftRight_eq_div_pow, Nat.shiftRight_eq_div_pow]
  omega

theorem dig4 (t : Nat) (ht : t < 2 ^ 48) :
    (((t >>> 24) % 256) &&& 62) >>> 1 = t / 32 ^ 5 % 32 := by
  rw [and62 _ (by omega), Nat.shiftRight_eq_div_pow]
  omega

theorem dig5 (t : Nat) (ht : t < 2 ^ 48) :
    ((((t >>> 24) % 256) &&& 1) <<< 4) ||| ((((t >>> 16) % 256) &&& 240) >>> 4) =
      t / 32 ^ 4 % 32 := by
  rw [mF _ _ (by omega) (by omega), Nat.shiftRight_eq_div_pow, Nat.shiftRight_eq_div_pow]
  omega

theorem dig6 (t : Nat) (ht : t < 2 ^ 48) :
    ((((t >>> 16) % 256) &&& 15) <<< 1) ||| ((((t >>> 8) % 256) &&& 128) >>> 7) =
      t / 32 ^ 3 % 32 := by
  rw [mG _ _ (by omega) (by omega), Nat.shiftRight_eq_div_pow, Nat.shiftRight_eq_div_pow]
  omega

theorem dig7 (t : Nat) (ht : t < 2 ^ 48) :
    (((t >>> 8) % 256) &&& 124) >>> 2 = t / 32 ^ 2 % 32 := by
  rw [and124 _ (by omega), Nat.shiftRight_eq_div_pow]
  omega

theorem dig8 (t : Nat) (ht : t < 2 ^ 48) :
    ((((t >>> 8) % 256) &&& 3) <<< 3) ||| (((t % 256) &&& 224) >>> 5) = t / 32 ^ 1 % 32 := by
  rw [mI _ _ (by omega) (by omega), Nat.shiftRight_eq_div_pow]
  omega

theorem dig9 (t : Nat) (ht : t < 2 ^ 48) : (t % 256) &&& 31 = t / 32 ^ 0 % 32 := by
  rw [and31 _ (by omega)]
  omega

/-- `MarshalTo` splits into the timestamp characters and the entropy
characters. -/
theorem marshal_split (u : ULID) : MarshalTo u = tsChars u ++ entropyChars u := rfl

/-- The ten timestamp characters of an encoded identifier are exactly the
alphabet images of the ten base-32 digits of the timestamp. -/
theorem ts_digits (t : Nat) (ht : t < 2 ^ 48) (u : ULID) :
    tsChars (EncodeTimestamp t u) = (digitsBE 32 10 t).map mChar := by
  simp only [tsChars, EncodeTimestamp, digitsBE_ten, List.map_cons, List.map_nil]
  rw [dig0 t ht, dig1 t ht, dig2 t ht, dig3 t ht, dig4 t ht, dig5 t ht, dig6 t ht,
    dig7 t ht, dig8 t ht, dig9 t ht]

/-- Identifiers whose timestamp fields come from `t1 < t2` (both within
48 bits) compare as -1 regardless of entropy. -/
theorem lexCmp_lt_head (x y : Nat) (xs ys : List Nat) (h : x < y) :
    lexCmp (x :: xs) (y :: ys) = -1 := by
  simp only [lexCmp, if_pos (by omega : x ≠ y), if_pos h]
  omega

theorem lexCmp_eq_head (x : Nat) (xs ys : List Nat) :
    lexCmp (x :: xs) (x :: ys) = lexCmp xs ys := by
  simp [lexCmp]

/-- The byte list of a timestamp-encoded identifier. -/
theorem bytes_encodeTs (t : Nat) (x : ULID) : (EncodeTimestamp t x).bytes =
    [(t >>> 40) % 256, (t >>> 32) % 256, (t >>> 24) % 256, (t >>> 16) % 256,
     (t >>> 8) % 256, t % 256, x.data6, x.data7, x.data8, x.data9, x.data10,
     x.data11, x.data12, x.data13, x.data14, x.data15] := rfl

theorem cmpTs (t1 t2 : Nat) (h1 : t1 < 2 ^ 48) (h2 : t2 < 2 ^ 48) (hlt : t1 < t2)
    (x1 x2 : ULID) :
    CompareULIDs (EncodeTimestamp t1 x1) (EncodeTimestamp t2 x2) = -1 := by
  rw [compare_eq_lexCmp, bytes_encodeTs, bytes_encodeTs]
  by_cases c0 : (t1 >>> 40) % 256 = (t2 >>> 40) % 256
  · rw [c0, lexCmp_eq_head]
    by_cases c1 : (t1 >>> 32) % 256 = (t2 >>> 32) % 256
    · rw [c1, lexCmp_eq_head]
      by_cases c2 : (t1 >>> 24) % 256 = (t2 >>> 24) % 256
      · rw [c2, lexCmp_eq_head]
        by_cases c3 : (t1 >>> 16) % 256 = (t2 >>> 16) % 256
        · rw [c3, lexCmp_eq_head]
          by_cases c4 : (t1 >>> 8) % 256 = (t2 >>> 8) % 256
          · rw [c4, lexCmp_eq_head]
            exact lexCmp_lt_head _ _ _ _ (by omega)
          · exact lexCmp_lt_head _ _ _ _ (by omega)
        · exact lexCmp_lt_head _ _ _ _ (by omega)
      · exact lexCmp_lt_head _ _ _ _ (by omega)
    · exact lexCmp_lt_head _ _ _ _ (by omega)
  · exact lexCmp_lt_head _ _ _ _ (by omega)

/-- C2 (amended): for all timestamps `t1 < t2` within the 48-bit
timestamp field and arbitrary entropy in each identifier, the identifier
encoded from `t1` compares strictly less than the one encoded from `t2`,
both under `CompareULIDs` and under lexicographic comparison of the
26-character text encodings. -/
theorem ulid_monotonic_sortable (t1 t2 : Nat) (h1 : t1 < 2 ^ 48) (h2 : t2 < 2 ^ 48)
    (hlt : t1 < t2) (x1 x2 : ULID) :
    CompareULIDs (EncodeTimestamp t1 x1) (EncodeTimestamp t2 x2) = -1 ∧
    List.Lex (· < ·) (MarshalTo (EncodeTimestamp t1 x1))
      (MarshalTo (EncodeTimestamp t2 x2)) := by
  refine ⟨cmpTs t1 t2 h1 h2 hlt x1 x2, ?_⟩
  have hdig := digitsBE_lex 32 (by omega) 10 t1 t2 hlt (by omega)
  have hmap := lex_map_mChar hdig (digitsBE_lt 32 (by omega) 10 t1)
    (digitsBE_lt 32 (by omega) 10 t2)
  have happ := lex_append (entropyChars (EncodeTimestamp t1 x1))
    (entropyChars (EncodeTimestamp t2 x2)) hmap
    (by simp [digitsBE_length])
  rw [marshal_split, marshal_split, ts_digits t1 h1 x1, ts_digits t2 h2 x2]
  exact happ

/-- C2 (counterexample to the unrestricted claim): timestamps are
truncated to 48 bits, so `t1 = 0 < t2 = 2^48` produces identifiers with
identical timestamp bytes; with equal entropy they compare 0, not -1, and
their text encodings coincide. -/
theorem ulid_monotonic_counterexample :
    (0 : Nat) < 2 ^ 48 ∧
    CompareULIDs (EncodeTimestamp 0 zeroULID) (EncodeTimestamp (2 ^ 48) zeroULID) = 0 ∧
    MarshalTo (EncodeTimestamp 0 zeroULID) = MarshalTo (EncodeTimestamp (2 ^ 48) zeroULID) := by
  decide

/-- C2 witness at concrete timestamps and identifiers. -/
theorem ulid_monotonic_sortable_witness :
    (5 : Nat) < 2 ^ 48 ∧ (9 : Nat) < 2 ^ 48 ∧ (5 : Nat) < 9 ∧
    CompareULIDs (EncodeTimestamp 5 sampleULID) (EncodeTimestamp 9 sampleULID2) = -1 :=
  ⟨by norm_num, by norm_num, by norm_num,
   (ulid_monotonic_sortable 5 9 (by norm_num) (by norm_num) (by norm_num)
     sampleULID sampleULID2).1⟩

/-- The big-endian bytes of the abstraction `ULID.toNat`. -/
theorem toNat_bytes (u : ULID) (h : u.Wf) :
    (u.toNat >>> 120) % 256 = u.data0 ∧ (u.toNat >>> 112) % 256 = u.data1 ∧
    (u.toNat >>> 104) % 256 = u.data2 ∧ (u.toNat >>> 96) % 256 = u.data3 ∧
    (u.toNat >>> 88) % 256 = u.data4 ∧ (u.toNat >>> 80) % 256 = u.data5 ∧
    (u.toNat >>> 72) % 256 = u.data6 ∧ (u.toNat >>> 64) % 256 = u.data7 ∧
    (u.toNat >>> 56) % 256 = u.data8 ∧ (u.toNat >>> 48) % 256 = u.data9 ∧
    (u.toNat >>> 40) % 256 = u.data10 ∧ (u.toNat >>> 32) % 256 = u.data11 ∧
    (u.toNat >>> 24) % 256 = u.data12 ∧ (u.toNat >>> 16) % 256 = u.data13 ∧
    (u.toNat >>> 8) % 256 = u.data14 ∧ u.toNat % 256 = u.data15 := by
  obtain ⟨h0, h1, h2, h3, h4, h5, h6, h7, h8, h9, h10, h11, h12, h13, h14, h15⟩ := h
  unfold ULID.toNat
  refine ⟨?_, ?_, ?_, ?_, ?_, ?_, ?_, ?_, ?_, ?_, ?_, ?_, ?_, ?_, ?_, ?_⟩ <;> omega

/-- The scalar text encoder agrees with the byte-array text encoder. -/
theorem marshal128_eq (u : ULID) (h : u.Wf) : Ulid128.MarshalTo u.toNat = MarshalTo u := by
  obtain ⟨e0, e1, e2, e3, e4, e5, e6, e7, e8, e9, e10, e11, e12, e13, e14, e15⟩ :=
    toNat_bytes u h
  simp only [Ulid128.MarshalTo, MarshalTo]
  rw [e0, e1, e2, e3, e4, e5, e6, e7, e8, e9, e10, e11, e12, e13, e14, e15]

/-- The scalar binary encoder agrees with the byte-array binary encoder. -/
theorem marshalBinary128_eq (u : ULID) (h : u.Wf) :
    Ulid128.MarshalBinaryTo u.toNat = MarshalBinaryTo u := by
  obtain ⟨e0, e1, e2, e3, e4, e5, e6, e7, e8, e9, e10, e11, e12, e13, e14, e15⟩ :=
    toNat_bytes u h
  simp only [Ulid128.MarshalBinaryTo, MarshalBinaryTo, ULID.bytes]
  rw [e0, e1, e2, e3, e4, e5, e6, e7, e8, e9, e10, e11, e12, e13, e14, e15]

/-- The scalar timestamp extractor agrees with the byte-array one. -/
theorem time128_eq (u : ULID) (h : u.Wf) : Ulid128.Time u.toNat = Time u := by
  obtain ⟨e0, e1, e2, e3, e4, e5, -⟩ := toNat_bytes u h
  simp only [Ulid128.Time, Time]
  rw [e0, e1, e2, e3, e4, e5]

theorem wf_bytes (u : ULID) (h : u.Wf) : ∀ x ∈ u.bytes, x < 256 := by
  obtain ⟨h0, h1, h2, h3, h4, h5, h6, h7, h8, h9, h10, h11, h12, h13, h14, h15⟩ := h
  intro x hx
  simp only [ULID.bytes, List.mem_cons, List.not_mem_nil, or_false] at hx
  rcases hx with rfl | rfl | rfl | rfl | rfl | rfl | rfl | rfl | rfl | rfl | rfl | rfl |
    rfl | rfl | rfl | rfl <;> assumption

theorem bytes_inj (a b : ULID) : a.bytes = b.bytes ↔ a = b := by
  obtain ⟨a0, a1, a2, a3, a4, a5, a6, a7, a8, a9, a10, a11, a12, a13, a14, a15⟩ := a
  obtain ⟨b0, b1, b2, b3, b4, b5, b6, b7, b8, b9, b10, b11, b12, b13, b14, b15⟩ := b
  simp [ULID.bytes, ULID.mk.injEq]

theorem natBE_toNat (u : ULID) : natBE u.bytes = u.toNat := by
  simp only [ULID.bytes, ULID.toNat, natBE, List.length_cons, List.length_nil]
  omega

theorem natBE_lt : ∀ xs : List Nat, (∀ x ∈ xs, x < 256) → natBE xs < 256 ^ xs.length := by
  intro xs
  induction xs with
  | nil => intro _; simp [natBE]
  | cons x xs ih =>
    intro h
    simp only [natBE, List.length_cons]
    have hx : x < 256 := h x (List.mem_cons_self x xs)
    have hr : natBE xs < 256 ^ xs.length := ih (fun y hy => h y (List.mem_cons_of_mem x hy))
    calc x * 256 ^ xs.length + natBE xs < x * 256 ^ xs.length + 256 ^ xs.length := by omega
      _ = (x + 1) * 256 ^ xs.length := by ring
      _ ≤ 256 * 256 ^ xs.length := Nat.mul_le_mul_right _ (by omega)
      _ = 256 ^ (xs.length + 1) := by rw [pow_succ]; ring

theorem be_head_lt (x y X Y P : Nat) (hX : X < P) (hY : Y < P) (h : x < y) :
    x * P + X < y * P + Y := by
  calc x * P + X < x * P + P := by omega
    _ = (x + 1) * P := by ring
    _ ≤ y * P := Nat.mul_le_mul_right _ (by omega)
    _ ≤ y * P + Y := Nat.le_add_right _ _

/-- The list comparison loop decides exactly the big-endian numeric
comparison on byte-valued lists. -/
theorem lexCmp_eq_neg_one_iff : ∀ xs ys : List Nat, xs.length = ys.length →
    (∀ x ∈ xs, x < 256) → (∀ y ∈ ys, y < 256) →
    (lexCmp xs ys = -1 ↔ natBE xs < natBE ys) := by
  intro xs
  induction xs with
  | nil =>
    intro ys hlen _ _
    cases ys with
    | nil => simp [lexCmp, natBE]
    | cons y ys => simp at hlen
  | cons x xs ih =>
    intro ys hlen hx hy
    cases ys with
    | nil => simp at hlen
    | cons y ys =>
      have hlen' : xs.length = ys.length := by simpa using hlen
      have hXP : natBE xs < 256 ^ ys.length := by
        rw [← hlen']
        exact natBE_lt xs (fun a ha => hx a (List.mem_cons_of_mem x ha))
      have hYP : natBE ys < 256 ^ ys.length :=
        natBE_lt ys (fun a ha => hy a (List.mem_cons_of_mem y ha))
      simp only [lexCmp, natBE, hlen']
      split_ifs with h1 h2
      · constructor
        · intro _
          exact be_head_lt x y _ _ _ hXP hYP h2
        · intro _
          rfl
      · constructor
        · intro hv
          exfalso
          omega
        · intro hv
          exfalso
          have := be_head_lt y x (natBE ys) (natBE xs) (256 ^ ys.length) hYP hXP (by omega)
          omega
      · push_neg at h1
        subst h1
        rw [ih ys hlen' (fun a ha => hx a (List.mem_cons_of_mem x ha))
          (fun a ha => hy a (List.mem_cons_of_mem x ha))]
        omega

theorem lexCmp_swap : ∀ xs ys : List Nat, lexCmp ys xs = -lexCmp xs ys := by
  intro xs
  induction xs with
  | nil => intro ys; cases ys <;> simp [lexCmp]
  | cons x xs ih =>
    intro ys
    cases ys with
    | nil => simp [lexCmp]
    | cons y ys =>
      simp only [lexCmp]
      split_ifs <;> first | omega | exact ih ys

/-- The scalar comparison agrees with the byte-array comparison. -/
theorem compare128_eq (u v : ULID) (hu : u.Wf) (hv : v.Wf) :
    Ulid128.CompareULIDs u.toNat v.toNat = CompareULIDs u v := by
  have hbu := wf_bytes u hu
  have hbv := wf_bytes v hv
  have hlen : u.bytes.length = v.bytes.length := rfl
  rcases lexCmp_trichotomy u.bytes v.bytes with h | h | h
  · have hlt : u.toNat < v.toNat := by
      rw [← natBE_toNat, ← natBE_toNat]
      exact (lexCmp_eq_neg_one_iff u.bytes v.bytes hlen hbu hbv).mp h
    rw [compare_eq_lexCmp, h]
    simp only [Ulid128.CompareULIDs, if_pos hlt, if_neg (by omega : ¬u.toNat = v.toNat)]
    norm_num
  · have hbeq : u.bytes = v.bytes := (lexCmp_eq_zero_iff _ _ hlen).mp h
    have heq : u = v := (bytes_inj u v).mp hbeq
    subst heq
    rw [compare_eq_lexCmp, h]
    simp only [Ulid128.CompareULIDs, if_neg (lt_irrefl u.toNat), if_pos rfl]
    norm_num
  · have h' : lexCmp v.bytes u.bytes = -1 := by
      rw [lexCmp_swap u.bytes v.bytes, h]
    have hgt : v.toNat < u.toNat := by
      rw [← natBE_toNat, ← natBE_toNat]
      exact (lexCmp_eq_neg_one_iff v.bytes u.bytes hlen.symm hbv hbu).mp h'
    rw [compare_eq_lexCmp, h]
    simp only [Ulid128.CompareULIDs, if_neg (by omega : ¬u.toNat < v.toNat),
      if_neg (by omega : ¬u.toNat = v.toNat)]
    norm_num

/-- The scalar binary decoder agrees with the byte-array binary decoder
(throughout, `toNat` relates the two representations). -/
theorem unmarshalBinary128_eq (b : List Nat) (hlen : b.length = 16)
    (hb : ∀ x ∈ b, x < 256) :
    (UnmarshalBinaryFrom b).toNat = Ulid128.UnmarshalBinaryFrom b := by
  rcases b with _ | ⟨b0, b⟩
  · simp at hlen
  rcases b with _ | ⟨b1, b⟩
  · simp at hlen
  rcases b with _ | ⟨b2, b⟩
  · simp at hlen
  rcases b with _ | ⟨b3, b⟩
  · simp at hlen
  rcases b with _ | ⟨b4, b⟩
  · simp at hlen
  rcases b with _ | ⟨b5, b⟩
  · simp at hlen
  rcases b with _ | ⟨b6, b⟩
  · simp at hlen
  rcases b with _ | ⟨b7, b⟩
  · simp at hlen
  rcases b with _ | ⟨b8, b⟩
  · simp at hlen
  rcases b with _ | ⟨b9, b⟩
  · simp at hlen
  rcases b with _ | ⟨b10, b⟩
  · simp at hlen
  rcases b with _ | ⟨b11, b⟩
  · simp at hlen
  rcases b with _ | ⟨b12, b⟩
  · simp at hlen
  rcases b with _ | ⟨b13, b⟩
  · simp at hlen
  rcases b with _ | ⟨b14, b⟩
  · simp at hlen
  rcases b with _ | ⟨b15, b⟩
  · simp at hlen
  have hnil : b = [] := by
    cases b with
    | nil => rfl
    | cons c cs =>
      exfalso
      simp only [List.length_cons, List.length_nil] at hlen
      omega
  subst hnil
  have h0 : b0 < 256 := hb b0 (by simp)
  have h1 : b1 < 256 := hb b1 (by simp)
  have h2 : b2 < 256 := hb b2 (by simp)
  have h3 : b3 < 256 := hb b3 (by simp)
  have h4 : b4 < 256 := hb b4 (by simp)
  have h5 : b5 < 256 := hb b5 (by simp)
  have h6 : b6 < 256 := hb b6 (by simp)
  have h7 : b7 < 256 := hb b7 (by simp)
  have h8 : b8 < 256 := hb b8 (by simp)
  have h9 : b9 < 256 := hb b9 (by simp)
  have h10 : b10 < 256 := hb b10 (by simp)
  have h11 : b11 < 256 := hb b11 (by simp)
  have h12 : b12 < 256 := hb b12 (by simp)
  have h13 : b13 < 256 := hb b13 (by simp)
  have h14 : b14 < 256 := hb b14 (by simp)
  have h15 : b15 < 256 := hb b15 (by simp)
  simp only [Ulid128.UnmarshalBinaryFrom, UnmarshalBinaryFrom, ULID.toNat,
    List.getD_cons_zero, List.getD_cons_succ]
  rw [chain_step_small (b0) b1 (by omega) h1]
  rw [chain_step_small (256 * (b0) + b1) b2 (by omega) h2]
  rw [chain_step_small (256 * (256 * (b0) + b1) + b2) b3 (by omega) h3]
  rw [chain_step_small (256 * (256 * (256 * (b0) + b1) + b2) + b3) b4 (by omega) h4]
  rw [chain_step_small (256 * (256 * (256 * (256 * (b0) + b1) + b2) + b3) + b4) b5 (by omega) h5]
  rw [chain_step_small (256 * (256 * (256 * (256 * (256 * (b0) + b1) + b2) + b3) + b4) + b5) b6 (by omega) h6]
  rw [chain_step_small (256 * (256 * (256 * (256 * (256 * (256 * (b0) + b1) + b2) + b3) + b4) + b5) + b6) b7 (by omega) h7]
  rw [chain_step_small (256 * (256 * (256 * (256 * (256 * (256 * (256 * (b0) + b1) + b2) + b3) + b4) + b5) + b6) + b7) b8 (by omega) h8]
  rw [chain_step_small (256 * (256 * (256 * (256 * (256 * (256 * (256 * (256 * (b0) + b1) + b2) + b3) + b4) + b5) + b6) + b7) + b8) b9 (by omega) h9]
  rw [chain_step_small (256 * (256 * (256 * (256 * (256 * (256 * (256 * (256 * (256 * (b0) + b1) + b2) + b3) + b4) + b5) + b6) + b7) + b8) + b9) b10 (by omega) h10]
  rw [chain_step_small (256 * (256 * (256 * (256 * (256 * (256 * (256 * (256 * (256 * (256 * (b0) + b1) + b2) + b3) + b4) + b5) + b6) + b7) + b8) + b9) + b10) b11 (by omega) h11]
  rw [chain_step_small (256 * (256 * (256 * (256 * (256 * (256 * (256 * (256 * (256 * (256 * (256 * (b0) + b1) + b2) + b3) + b4) + b5) + b6) + b7) + b8) + b9) + b10) + b11) b12 (by omega) h12]
  rw [chain_step_small (256 * (256 * (256 * (256 * (256 * (256 * (256 * (256 * (256 * (256 * (256 * (256 * (b0) + b1) + b2) + b3) + b4) + b5) + b6) + b7) + b8) + b9) + b10) + b11) + b12) b13 (by omega) h13]
  rw [chain_step_small (256 * (256 * (256 * (256 * (256 * (256 * (256 * (256 * (256 * (256 * (256 * (256 * (256 * (b0) + b1) + b2) + b3) + b4) + b5) + b6) + b7) + b8) + b9) + b10) + b11) + b12) + b13) b14 (by omega) h14]
  rw [chain_step_small (256 * (256 * (256 * (256 * (256 * (256 * (256 * (256 * (256 * (256 * (256 * (256 * (256 * (256 * (b0) + b1) + b2) + b3) + b4) + b5) + b6) + b7) + b8) + b9) + b10) + b11) + b12) + b13) + b14) b15 (by omega) h15]
  omega

set_option maxHeartbeats 4000000 in
/-- Core arithmetic fact behind the text-decoder equivalence: the
byte-array decoder's 16 truncated bytes, assembled big-endian, equal the
value accumulated by the scalar decoder's shift/or chain, for any
32-bounded digit values. -/
theorem textChainEval (e0 e1 e2 e3 e4 e5 e6 e7 e8 e9 e10 e11 e12 e13 e14 e15 e16 e17 e18 e19 e20 e21 e22 e23 e24 e25 : Nat)
    (h0 : e0 < 32) (h1 : e1 < 32) (h2 : e2 < 32) (h3 : e3 < 32)
    (h4 : e4 < 32) (h5 : e5 < 32) (h6 : e6 < 32) (h7 : e7 < 32)
    (h8 : e8 < 32) (h9 : e9 < 32) (h10 : e10 < 32) (h11 : e11 < 32)
    (h12 : e12 < 32) (h13 : e13 < 32) (h14 : e14 < 32) (h15 : e15 < 32)
    (h16 : e16 < 32) (h17 : e17 < 32) (h18 : e18 < 32) (h19 : e19 < 32)
    (h20 : e20 < 32) (h21 : e21 < 32) (h22 : e22 < 32) (h23 : e23 < 32)
    (h24 : e24 < 32) (h25 : e25 < 32) :
    (e0 <<< 5 ||| e1) % 256 * 2 ^ 120 +
      (e2 <<< 3 ||| e3 >>> 2) % 256 * 2 ^ 112 +
      (e3 <<< 6 ||| e4 <<< 1 ||| e5 >>> 4) % 256 * 2 ^ 104 +
      (e5 <<< 4 ||| e6 >>> 1) % 256 * 2 ^ 96 +
      (e6 <<< 7 ||| e7 <<< 2 ||| e8 >>> 3) % 256 * 2 ^ 88 +
      (e8 <<< 5 ||| e9) % 256 * 2 ^ 80 +
      (e10 <<< 3 ||| e11 >>> 2) % 256 * 2 ^ 72 +
      (e11 <<< 6 ||| e12 <<< 1 ||| e13 >>> 4) % 256 * 2 ^ 64 +
      (e13 <<< 4 ||| e14 >>> 1) % 256 * 2 ^ 56 +
      (e14 <<< 7 ||| e15 <<< 2 ||| e16 >>> 3) % 256 * 2 ^ 48 +
      (e16 <<< 5 ||| e17) % 256 * 2 ^ 40 +
      (e18 <<< 3 ||| e19 >>> 2) % 256 * 2 ^ 32 +
      (e19 <<< 6 ||| e20 <<< 1 ||| e21 >>> 4) % 256 * 2 ^ 24 +
      (e21 <<< 4 ||| e22 >>> 1) % 256 * 2 ^ 16 +
      (e22 <<< 7 ||| e23 <<< 2 ||| e24 >>> 3) % 256 * 2 ^ 8 +
      (e24 <<< 5 ||| e25) % 256 =
    (((((((((((((((((((((((((((((((e0 <<< 5 ||| e1)) <<< 8 % Ulid128.size128 ||| (e2 <<< 3 ||| e3 >>> 2))) <<< 8 % Ulid128.size128 ||| (e3 <<< 6 ||| e4 <<< 1 ||| e5 >>> 4))) <<< 8 % Ulid128.size128 ||| (e5 <<< 4 ||| e6 >>> 1))) <<< 8 % Ulid128.size128 ||| (e6 <<< 7 ||| e7 <<< 2 ||| e8 >>> 3))) <<< 8 % Ulid128.size128 ||| (e8 <<< 5 ||| e9))) <<< 8 % Ulid128.size128 ||| (e10 <<< 3 ||| e11 >>> 2))) <<< 8 % Ulid128.size128 ||| (e11 <<< 6 ||| e12 <<< 1 ||| e13 >>> 4))) <<< 8 % Ulid128.size128 ||| (e13 <<< 4 ||| e14 >>> 1))) <<< 8 % Ulid128.size128 ||| (e14 <<< 7 ||| e15 <<< 2 ||| e16 >>> 3))) <<< 8 % Ulid128.size128 ||| (e16 <<< 5 ||| e17))) <<< 8 % Ulid128.size128 ||| (e18 <<< 3 ||| e19 >>> 2))) <<< 8 % Ulid128.size128 ||| (e19 <<< 6 ||| e20 <<< 1 ||| e21 >>> 4))) <<< 8 % Ulid128.size128 ||| (e21 <<< 4 ||| e22 >>> 1))) <<< 8 % Ulid128.size128 ||| (e22 <<< 7 ||| e23 <<< 2 ||| e24 >>> 3))) <<< 8 % Ulid128.size128 ||| (e24 <<< 5 ||| e25)) := by
  have hop1 := opA e0 e1 h0 h1
  have hop2 := opB e2 e3 h2 h3
  have hop3 := opC e3 e4 e5 h3 h4 h5
  have hop4 := opD e5 e6 h5 h6
  have hop5 := opE e6 e7 e8 h6 h7 h8
  have hop6 := opA e8 e9 h8 h9
  have hop7 := opB e10 e11 h10 h11
  have hop8 := opC e11 e12 e13 h11 h12 h13
  have hop9 := opD e13 e14 h13 h14
  have hop10 := opE e14 e15 e16 h14 h15 h16
  have hop11 := opA e16 e17 h16 h17
  have hop12 := opB e18 e19 h18 h19
  have hop13 := opC e19 e20 e21 h19 h20 h21
  have hop14 := opD e21 e22 h21 h22
  have hop15 := opE e22 e23 e24 h22 h23 h24
  have hop16 := opA e24 e25 h24 h25
  have hX1 : (32 * e0 + e1) % 256 = 32 * (e0 % 8) + e1 := by omega
  have hXb1 : (32 * (e0 % 8) + e1) < 256 := by omega
  have hX2 : (8 * e2 + e3 / 4) % 256 = 8 * e2 + e3 / 4 := by omega
  have hXb2 : (8 * e2 + e3 / 4) < 256 := by omega
  have hX3 : (64 * e3 + 2 * e4 + e5 / 16) % 256 = 64 * (e3 % 4) + 2 * e4 + e5 / 16 := by omega
  have hXb3 : (64 * (e3 % 4) + 2 * e4 + e5 / 16) < 256 := by omega
  have hOb3 : (64 * e3 + 2 * e4 + e5 / 16) < 65536 := by omega
  have habs3 : (8 * e2 + e3 / 4) ||| (64 * e3 + 2 * e4 + e5 / 16) / 256 = 8 * e2 + e3 / 4 := by
    have hdiv : (64 * e3 + 2 * e4 + e5 / 16) / 256 = e3 / 4 := by omega
    rw [hdiv]
    exact absorb_low (8 * e2) (e3 / 4) (n := 3) (by omega) (by omega)
  have hX4 : (16 * e5 + e6 / 2) % 256 = 16 * (e5 % 16) + e6 / 2 := by omega
  have hXb4 : (16 * (e5 % 16) + e6 / 2) < 256 := by omega
  have hOb4 : (16 * e5 + e6 / 2) < 65536 := by omega
  have habs4 : (64 * (e3 % 4) + 2 * e4 + e5 / 16) ||| (16 * e5 + e6 / 2) / 256 = 64 * (e3 % 4) + 2 * e4 + e5 / 16 := by
    have hdiv : (16 * e5 + e6 / 2) / 256 = e5 / 16 := by omega
    rw [hdiv]
    exact absorb_low (64 * (e3 % 4) + 2 * e4) (e5 / 16) (n := 1) (by omega) (by omega)
  have hX5 : (128 * e6 + 4 * e7 + e8 / 8) % 256 = 128 * (e6 % 2) + 4 * e7 + e8 / 8 := by omega
  have hXb5 : (128 * (e6 % 2) + 4 * e7 + e8 / 8) < 256 := by omega
  have hOb5 : (128 * e6 + 4 * e7 + e8 / 8) < 65536 := by omega
  have habs5 : (16 * (e5 % 16) + e6 / 2) ||| (128 * e6 + 4 * e7 + e8 / 8) / 256 = 16 * (e5 % 16) + e6 / 2 := by
    have hdiv : (128 * e6 + 4 * e7 + e8 / 8) / 256 = e6 / 2 := by omega
    rw [hdiv]
    exact absorb_low (16 * (e5 % 16)) (e6 / 2) (n := 4) (by omega) (by omega)
  have hX6 : (32 * e8 + e9) % 256 = 32 * (e8 % 8) + e9 := by omega
  have hXb6 : (32 * (e8 % 8) + e9) < 256 := by omega
  have hOb6 : (32 * e8 + e9) < 65536 := by omega
  have habs6 : (128 * (e6 % 2) + 4 * e7 + e8 / 8) ||| (32 * e8 + e9) / 256 = 128 * (e6 % 2) + 4 * e7 + e8 / 8 := by
    have hdiv : (32 * e8 + e9) / 256 = e8 / 8 := by omega
    rw [hdiv]
    exact absorb_low (128 * (e6 % 2) + 4 * e7) (e8 / 8) (n := 2) (by omega) (by omega)
  have hX7 : (8 * e10 + e11 / 4) % 256 = 8 * e10 + e11 / 4 := by omega
  have hXb7 : (8 * e10 + e11 / 4) < 256 := by omega
  have hX8 : (64 * e11 + 2 * e12 + e13 / 16) % 256 = 64 * (e11 % 4) + 2 * e12 + e13 / 16 := by omega
  have hXb8 : (64 * (e11 % 4) + 2 * e12 + e13 / 16) < 256 := by omega
  have hOb8 : (64 * e11 + 2 * e12 + e13 / 16) < 65536 := by omega
  have habs8 : (8 * e10 + e11 / 4) ||| (64 * e11 + 2 * e12 + e13 / 16) / 256 = 8 * e10 + e11 / 4 := by
    have hdiv : (64 * e11 + 2 * e12 + e13 / 16) / 256 = e11 / 4 := by omega
    rw [hdiv]
    exact absorb_low (8 * e10) (e11 / 4) (n := 3) (by omega) (by omega)
  have hX9 : (16 * e13 + e14 / 2) % 256 = 16 * (e13 % 16) + e14 / 2 := by omega
  have hXb9 : (16 * (e13 % 16) + e14 / 2) < 256 := by omega
  have hOb9 : (16 * e13 + e14 / 2) < 65536 := by omega
  have habs9 : (64 * (e11 % 4) + 2 * e12 + e13 / 16) ||| (16 * e13 + e14 / 2) / 256 = 64 * (e11 % 4) + 2 * e12 + e13 / 16 := by
    have hdiv : (16 * e13 + e14 / 2) / 256 = e13 / 16 := by omega
    rw [hdiv]
    exact absorb_low (64 * (e11 % 4) + 2 * e12) (e13 / 16) (n := 1) (by omega) (by omega)
  have hX10 : (128 * e14 + 4 * e15 + e16 / 8) % 256 = 128 * (e14 % 2) + 4 * e15 + e16 / 8 := by omega
  have hXb10 : (128 * (e14 % 2) + 4 * e15 + e16 / 8) < 256 := by omega
  have hOb10 : (128 * e14 + 4 * e15 + e16 / 8) < 65536 := by omega
  have habs10 : (16 * (e13 % 16) + e14 / 2) ||| (128 * e14 + 4 * e15 + e16 / 8) / 256 = 16 * (e13 % 16) + e14 / 2 := by
    have hdiv : (128 * e14 + 4 * e15 + e16 / 8) / 256 = e14 / 2 := by omega
    rw [hdiv]
    exact absorb_low (16 * (e13 % 16)) (e14 / 2) (n := 4) (by omega) (by omega)
  have hX11 : (32 * e16 + e17) % 256 = 32 * (e16 % 8) + e17 := by omega
  have hXb11 : (32 * (e16 % 8) + e17) < 256 := by omega
  have hOb11 : (32 * e16 + e17) < 65536 := by omega
  have habs11 : (128 * (e14 % 2) + 4 * e15 + e16 / 8) ||| (32 * e16 + e17) / 256 = 128 * (e14 % 2) + 4 * e15 + e16 / 8 := by
    have hdiv : (32 * e16 + e17) / 256 = e16 / 8 := by omega
    rw [hdiv]
    exact absorb_low (128 * (e14 % 2) + 4 * e15) (e16 / 8) (n := 2) (by omega) (by omega)
  have hX12 : (8 * e18 + e19 / 4) % 256 = 8 * e18 + e19 / 4 := by omega
  have hXb12 : (8 * e18 + e19 / 4) < 256 := by omega
  have hX13 : (64 * e19 + 2 * e20 + e21 / 16) % 256 = 64 * (e19 % 4) + 2 * e20 + e21 / 16 := by omega
  have hXb13 : (64 * (e19 % 4) + 2 * e20 + e21 / 16) < 256 := by omega
  have hOb13 : (64 * e19 + 2 * e20 + e21 / 16) < 65536 := by omega
  have habs13 : (8 * e18 + e19 / 4) ||| (64 * e19 + 2 * e20 + e21 / 16) / 256 = 8 * e18 + e19 / 4 := by
    have hdiv : (64 * e19 + 2 * e20 + e21 / 16) / 256 = e19 / 4 := by omega
    rw [hdiv]
    exact absorb_low (8 * e18) (e19 / 4) (n := 3) (by omega) (by omega)
  have hX14 : (16 * e21 + e22 / 2) % 256 = 16 * (e21 % 16) + e22 / 2 := by omega
  have hXb14 : (16 * (e21 % 16) + e22 / 2) < 256 := by omega
  have hOb14 : (16 * e21 + e22 / 2) < 65536 := by omega
  have habs14 : (64 * (e19 % 4) + 2 * e20 + e21 / 16) ||| (16 * e21 + e22 / 2) / 256 = 64 * (e19 % 4) + 2 * e20 + e21 / 16 := by
    have hdiv : (16 * e21 + e22 / 2) / 256 = e21 / 16 := by omega
    rw [hdiv]
    exact absorb_low (64 * (e19 % 4) + 2 * e20) (e21 / 16) (n := 1) (by omega) (by omega)
  have hX15 : (128 * e22 + 4 * e23 + e24 / 8) % 256 = 128 * (e22 % 2) + 4 * e23 + e24 / 8 := by omega
  have hXb15 : (128 * (e22 % 2) + 4 * e23 + e24 / 8) < 256 := by omega
  have hOb15 : (128 * e22 + 4 * e23 + e24 / 8) < 65536 := by omega
  have habs15 : (16 * (e21 % 16) + e22 / 2) ||| (128 * e22 + 4 * e23 + e24 / 8) / 256 = 16 * (e21 % 16) + e22 / 2 := by
    have hdiv : (128 * e22 + 4 * e23 + e24 / 8) / 256 = e22 / 2 := by omega
    rw [hdiv]
    exact absorb_low (16 * (e21 % 16)) (e22 / 2) (n := 4) (by omega) (by omega)
  have hX16 : (32 * e24 + e25) % 256 = 32 * (e24 % 8) + e25 := by omega
  have hXb16 : (32 * (e24 % 8) + e25) < 256 := by omega
  have hOb16 : (32 * e24 + e25) < 65536 := by omega
  have habs16 : (128 * (e22 % 2) + 4 * e23 + e24 / 8) ||| (32 * e24 + e25) / 256 = 128 * (e22 % 2) + 4 * e23 + e24 / 8 := by
    have hdiv : (32 * e24 + e25) / 256 = e24 / 8 := by omega
    rw [hdiv]
    exact absorb_low (128 * (e22 % 2) + 4 * e23) (e24 / 8) (n := 2) (by omega) (by omega)
  rw [hop1, hop2, hop3, hop4, hop5, hop6, hop7, hop8, hop9, hop10, hop11, hop12, hop13, hop14, hop15, hop16]
  rw [hX1, hX2, hX3, hX4, hX5, hX6, hX7, hX8, hX9, hX10, hX11, hX12, hX13, hX14, hX15, hX16]
  have hb1 : (32 * e0 + e1) < 2 ^ 10 := by omega
  rw [chain_step_small (32 * e0 + e1) (8 * e2 + e3 / 4) (lt_of_lt_of_le hb1 (by norm_num)) hXb2]
  have hb2 : (256 * (32 * e0 + e1) + (8 * e2 + e3 / 4)) < 2 ^ 18 :=
    lt_of_lt_of_le (boundStep (32 * e0 + e1) (8 * e2 + e3 / 4) (2 ^ 10) hb1 hXb2) (by norm_num)
  rw [chain_step_spill2 (256 * (32 * e0 + e1) + (8 * e2 + e3 / 4)) (64 * e3 + 2 * e4 + e5 / 16) (64 * (e3 % 4) + 2 * e4 + e5 / 16) (32 * e0 + e1) ((8 * e2 + e3 / 4)) rfl hXb2 hOb3 hX3 habs3 (lt_of_lt_of_le hb2 (by norm_num))]
  have hb3 : (256 * (256 * (32 * e0 + e1) + (8 * e2 + e3 / 4)) + (64 * (e3 % 4) + 2 * e4 + e5 / 16)) < 2 ^ 26 :=
    lt_of_lt_of_le (boundStep (256 * (32 * e0 + e1) + (8 * e2 + e3 / 4)) (64 * (e3 % 4) + 2 * e4 + e5 / 16) (2 ^ 18) hb2 hXb3) (by norm_num)
  rw [chain_step_spill2 (256 * (256 * (32 * e0 + e1) + (8 * e2 + e3 / 4)) + (64 * (e3 % 4) + 2 * e4 + e5 / 16)) (16 * e5 + e6 / 2) (16 * (e5 % 16) + e6 / 2) (256 * (32 * e0 + e1) + (8 * e2 + e3 / 4)) ((64 * (e3 % 4) + 2 * e4 + e5 / 16)) rfl hXb3 hOb4 hX4 habs4 (lt_of_lt_of_le hb3 (by norm_num))]
  have hb4 : (256 * (256 * (256 * (32 * e0 + e1) + (8 * e2 + e3 / 4)) + (64 * (e3 % 4) + 2 * e4 + e5 / 16)) + (16 * (e5 % 16) + e6 / 2)) < 2 ^ 34 :=
    lt_of_lt_of_le (boundStep (256 * (256 * (32 * e0 + e1) + (8 * e2 + e3 / 4)) + (64 * (e3 % 4) + 2 * e4 + e5 / 16)) (16 * (e5 % 16) + e6 / 2) (2 ^ 26) hb3 hXb4) (by norm_num)
  rw [chain_step_spill2 (256 * (256 * (256 * (32 * e0 + e1) + (8 * e2 + e3 / 4)) + (64 * (e3 % 4) + 2 * e4 + e5 / 16)) + (16 * (e5 % 16) + e6 / 2)) (128 * e6 + 4 * e7 + e8 / 8) (128 * (e6 % 2) + 4 * e7 + e8 / 8) (256 * (256 * (32 * e0 + e1) + (8 * e2 + e3 / 4)) + (64 * (e3 % 4) + 2 * e4 + e5 / 16)) ((16 * (e5 % 16) + e6 / 2)) rfl hXb4 hOb5 hX5 habs5 (lt_of_lt_of_le hb4 (by norm_num))]
  have hb5 : (256 * (256 * (256 * (256 * (32 * e0 + e1) + (8 * e2 + e3 / 4)) + (64 * (e3 % 4) + 2 * e4 + e5 / 16)) + (16 * (e5 % 16) + e6 / 2)) + (128 * (e6 % 2) + 4 * e7 + e8 / 8)) < 2 ^ 42 :=
    lt_of_lt_of_le (boundStep (256 * (256 * (256 * (32 * e0 + e1) + (8 * e2 + e3 / 4)) + (64 * (e3 % 4) + 2 * e4 + e5 / 16)) + (16 * (e5 % 16) + e6 / 2)) (128 * (e6 % 2) + 4 * e7 + e8 / 8) (2 ^ 34) hb4 hXb5) (by norm_num)
  rw [chain_step_spill2 (256 * (256 * (256 * (256 * (32 * e0 + e1) + (8 * e2 + e3 / 4)) + (64 * (e3 % 4) + 2 * e4 + e5 / 16)) + (16 * (e5 % 16) + e6 / 2)) + (128 * (e6 % 2) + 4 * e7 + e8 / 8)) (32 * e8 + e9) (32 * (e8 % 8) + e9) (256 * (256 * (256 * (32 * e0 + e1) + (8 * e2 + e3 / 4)) + (64 * (e3 % 4) + 2 * e4 + e5 / 16)) + (16 * (e5 % 16) + e6 / 2)) ((128 * (e6 % 2) + 4 * e7 + e8 / 8)) rfl hXb5 hOb6 hX6 habs6 (lt_of_lt_of_le hb5 (by norm_num))]
  have hb6 : (256 * (256 * (256 * (256 * (256 * (32 * e0 + e1) + (8 * e2 + e3 / 4)) + (64 * (e3 % 4) + 2 * e4 + e5 / 16)) + (16 * (e5 % 16) + e6 / 2)) + (128 * (e6 % 2) + 4 * e7 + e8 / 8)) + (32 * (e8 % 8) + e9)) < 2 ^ 50 :=
    lt_of_lt_of_le (boundStep (256 * (256 * (256 * (256 * (32 * e0 + e1) + (8 * e2 + e3 / 4)) + (64 * (e3 % 4) + 2 * e4 + e5 / 16)) + (16 * (e5 % 16) + e6 / 2)) + (128 * (e6 % 2) + 4 * e7 + e8 / 8)) (32 * (e8 % 8) + e9) (2 ^ 42) hb5 hXb6) (by norm_num)
  rw [chain_step_small (256 * (256 * (256 * (256 * (256 * (32 * e0 + e1) + (8 * e2 + e3 / 4)) + (64 * (e3 % 4) + 2 * e4 + e5 / 16)) + (16 * (e5 % 16) + e6 / 2)) + (128 * (e6 % 2) + 4 * e7 + e8 / 8)) + (32 * (e8 % 8) + e9)) (8 * e10 + e11 / 4) (lt_of_lt_of_le hb6 (by norm_num)) hXb7]
  have hb7 : (256 * (256 * (256 * (256 * (256 * (256 * (32 * e0 + e1) + (8 * e2 + e3 / 4)) + (64 * (e3 % 4) + 2 * e4 + e5 / 16)) + (16 * (e5 % 16) + e6 / 2)) + (128 * (e6 % 2) + 4 * e7 + e8 / 8)) + (32 * (e8 % 8) + e9)) + (8 * e10 + e11 / 4)) < 2 ^ 58 :=
    lt_of_lt_of_le (boundStep (256 * (256 * (256 * (256 * (256 * (32 * e0 + e1) + (8 * e2 + e3 / 4)) + (64 * (e3 % 4) + 2 * e4 + e5 / 16)) + (16 * (e5 % 16) + e6 / 2)) + (128 * (e6 % 2) + 4 * e7 + e8 / 8)) + (32 * (e8 % 8) + e9)) (8 * e10 + e11 / 4) (2 ^ 50) hb6 hXb7) (by norm_num)
  rw [chain_step_spill2 (256 * (256 * (256 * (256 * (256 * (256 * (32 * e0 + e1) + (8 * e2 + e3 / 4)) + (64 * (e3 % 4) + 2 * e4 + e5 / 16)) + (16 * (e5 % 16) + e6 / 2)) + (128 * (e6 % 2) + 4 * e7 + e8 / 8)) + (32 * (e8 % 8) + e9)) + (8 * e10 + e11 / 4)) (64 * e11 + 2 * e12 + e13 / 16) (64 * (e11 % 4) + 2 * e12 + e13 / 16) (256 * (256 * (256 * (256 * (256 * (32 * e0 + e1) + (8 * e2 + e3 / 4)) + (64 * (e3 % 4) + 2 * e4 + e5 / 16)) + (16 * (e5 % 16) + e6 / 2)) + (128 * (e6 % 2) + 4 * e7 + e8 / 8)) + (32 * (e8 % 8) + e9)) ((8 * e10 + e11 / 4)) rfl hXb7 hOb8 hX8 habs8 (lt_of_lt_of_le hb7 (by norm_num))]
  have hb8 : (256 * (256 * (256 * (256 * (256 * (256 * (256 * (32 * e0 + e1) + (8 * e2 + e3 / 4)) + (64 * (e3 % 4) + 2 * e4 + e5 / 16)) + (16 * (e5 % 16) + e6 / 2)) + (128 * (e6 % 2) + 4 * e7 + e8 / 8)) + (32 * (e8 % 8) + e9)) + (8 * e10 + e11 / 4)) + (64 * (e11 % 4) + 2 * e12 + e13 / 16)) < 2 ^ 66 :=
    lt_of_lt_of_le (boundStep (256 * (256 * (256 * (256 * (256 * (256 * (32 * e0 + e1) + (8 * e2 + e3 / 4)) + (64 * (e3 % 4) + 2 * e4 + e5 / 16)) + (16 * (e5 % 16) + e6 / 2)) + (128 * (e6 % 2) + 4 * e7 + e8 / 8)) + (32 * (e8 % 8) + e9)) + (8 * e10 + e11 / 4)) (64 * (e11 % 4) + 2 * e12 + e13 / 16) (2 ^ 58) hb7 hXb8) (by norm_num)
  rw [chain_step_spill2 (256 * (256 * (256 * (256 * (256 * (256 * (256 * (32 * e0 + e1) + (8 * e2 + e3 / 4)) + (64 * (e3 % 4) + 2 * e4 + e5 / 16)) + (16 * (e5 % 16) + e6 / 2)) + (128 * (e6 % 2) + 4 * e7 + e8 / 8)) + (32 * (e8 % 8) + e9)) + (8 * e10 + e11 / 4)) + (64 * (e11 % 4) + 2 * e12 + e13 / 16)) (16 * e13 + e14 / 2) (16 * (e13 % 16) + e14 / 2) (256 * (256 * (256 * (256 * (256 * (256 * (32 * e0 + e1) + (8 * e2 + e3 / 4)) + (64 * (e3 % 4) + 2 * e4 + e5 / 16)) + (16 * (e5 % 16) + e6 / 2)) + (128 * (e6 % 2) + 4 * e7 + e8 / 8)) + (32 * (e8 % 8) + e9)) + (8 * e10 + e11 / 4)) ((64 * (e11 % 4) + 2 * e12 + e13 / 16)) rfl hXb8 hOb9 hX9 habs9 (lt_of_lt_of_le hb8 (by norm_num))]
  have hb9 : (256 * (256 * (256 * (256 * (256 * (256 * (256 * (256 * (32 * e0 + e1) + (8 * e2 + e3 / 4)) + (64 * (e3 % 4) + 2 * e4 + e5 / 16)) + (16 * (e5 % 16) + e6 / 2)) + (128 * (e6 % 2) + 4 * e7 + e8 / 8)) + (32 * (e8 % 8) + e9)) + (8 * e10 + e11 / 4)) + (64 * (e11 % 4) + 2 * e12 + e13 / 16)) + (16 * (e13 % 16) + e14 / 2)) < 2 ^ 74 :=
    lt_of_lt_of_le (boundStep (256 * (256 * (256 * (256 * (256 * (256 * (256 * (32 * e0 + e1) + (8 * e2 + e3 / 4)) + (64 * (e3 % 4) + 2 * e4 + e5 / 16)) + (16 * (e5 % 16) + e6 / 2)) + (128 * (e6 % 2) + 4 * e7 + e8 / 8)) + (32 * (e8 % 8) + e9)) + (8 * e10 + e11 / 4)) + (64 * (e11 % 4) + 2 * e12 + e13 / 16)) (16 * (e13 % 16) + e14 / 2) (2 ^ 66) hb8 hXb9) (by norm_num)
  rw [chain_step_spill2 (256 * (256 * (256 * (256 * (256 * (256 * (256 * (256 * (32 * e0 + e1) + (8 * e2 + e3 / 4)) + (64 * (e3 % 4) + 2 * e4 + e5 / 16)) + (16 * (e5 % 16) + e6 / 2)) + (128 * (e6 % 2) + 4 * e7 + e8 / 8)) + (32 * (e8 % 8) + e9)) + (8 * e10 + e11 / 4)) + (64 * (e11 % 4) + 2 * e12 + e13 / 16)) + (16 * (e13 % 16) + e14 / 2)) (128 * e14 + 4 * e15 + e16 / 8) (128 * (e14 % 2) + 4 * e15 + e16 / 8) (256 * (256 * (256 * (256 * (256 * (256 * (256 * (32 * e0 + e1) + (8 * e2 + e3 / 4)) + (64 * (e3 % 4) + 2 * e4 + e5 / 16)) + (16 * (e5 % 16) + e6 / 2)) + (128 * (e6 % 2) + 4 * e7 + e8 / 8)) + (32 * (e8 % 8) + e9)) + (8 * e10 + e11 / 4)) + (64 * (e11 % 4) + 2 * e12 + e13 / 16)) ((16 * (e13 % 16) + e14 / 2)) rfl hXb9 hOb10 hX10 habs10 (lt_of_lt_of_le hb9 (by norm_num))]
  have hb10 : (256 * (256 * (256 * (256 * (256 * (256 * (256 * (256 * (256 * (32 * e0 + e1) + (8 * e2 + e3 / 4)) + (64 * (e3 % 4) + 2 * e4 + e5 / 16)) + (16 * (e5 % 16) + e6 / 2)) + (128 * (e6 % 2) + 4 * e7 + e8 / 8)) + (32 * (e8 % 8) + e9)) + (8 * e10 + e11 / 4)) + (64 * (e11 % 4) + 2 * e12 + e13 / 16)) + (16 * (e13 % 16) + e14 / 2)) + (128 * (e14 % 2) + 4 * e15 + e16 / 8)) < 2 ^ 82 :=
    lt_of_lt_of_le (boundStep (256 * (256 * (256 * (256 * (256 * (256 * (256 * (256 * (32 * e0 + e1) + (8 * e2 + e3 / 4)) + (64 * (e3 % 4) + 2 * e4 + e5 / 16)) + (16 * (e5 % 16) + e6 / 2)) + (128 * (e6 % 2) + 4 * e7 + e8 / 8)) + (32 * (e8 % 8) + e9)) + (8 * e10 + e11 / 4)) + (64 * (e11 % 4) + 2 * e12 + e13 / 16)) + (16 * (e13 % 16) + e14 / 2)) (128 * (e14 % 2) + 4 * e15 + e16 / 8) (2 ^ 74) hb9 hXb10) (by norm_num)
  rw [chain_step_spill2 (256 * (256 * (256 * (256 * (256 * (256 * (256 * (256 * (256 * (32 * e0 + e1) + (8 * e2 + e3 / 4)) + (64 * (e3 % 4) + 2 * e4 + e5 / 16)) + (16 * (e5 % 16) + e6 / 2)) + (128 * (e6 % 2) + 4 * e7 + e8 / 8)) + (32 * (e8 % 8) + e9)) + (8 * e10 + e11 / 4)) + (64 * (e11 % 4) + 2 * e12 + e13 / 16)) + (16 * (e13 % 16) + e14 / 2)) + (128 * (e14 % 2) + 4 * e15 + e16 / 8)) (32 * e16 + e17) (32 * (e16 % 8) + e17) (256 * (256 * (256 * (256 * (256 * (256 * (256 * (256 * (32 * e0 + e1) + (8 * e2 + e3 / 4)) + (64 * (e3 % 4) + 2 * e4 + e5 / 16)) + (16 * (e5 % 16) + e6 / 2)) + (128 * (e6 % 2) + 4 * e7 + e8 / 8)) + (32 * (e8 % 8) + e9)) + (8 * e10 + e11 / 4)) + (64 * (e11 % 4) + 2 * e12 + e13 / 16)) + (16 * (e13 % 16) + e14 / 2)) ((128 * (e14 % 2) + 4 * e15 + e16 / 8)) rfl hXb10 hOb11 hX11 habs11 (lt_of_lt_of_le hb10 (by norm_num))]
  have hb11 : (256 * (256 * (256 * (256 * (256 * (256 * (256 * (256 * (256 * (256 * (32 * e0 + e1) + (8 * e2 + e3 / 4)) + (64 * (e3 % 4) + 2 * e4 + e5 / 16)) + (16 * (e5 % 16) + e6 / 2)) + (128 * (e6 % 2) + 4 * e7 + e8 / 8)) + (32 * (e8 % 8) + e9)) + (8 * e10 + e11 / 4)) + (64 * (e11 % 4) + 2 * e12 + e13 / 16)) + (16 * (e13 % 16) + e14 / 2)) + (128 * (e14 % 2) + 4 * e15 + e16 / 8)) + (32 * (e16 % 8) + e17)) < 2 ^ 90 :=
    lt_of_lt_of_le (boundStep (256 * (256 * (256 * (256 * (256 * (256 * (256 * (256 * (256 * (32 * e0 + e1) + (8 * e2 + e3 / 4)) + (64 * (e3 % 4) + 2 * e4 + e5 / 16)) + (16 * (e5 % 16) + e6 / 2)) + (128 * (e6 % 2) + 4 * e7 + e8 / 8)) + (32 * (e8 % 8) + e9)) + (8 * e10 + e11 / 4)) + (64 * (e11 % 4) + 2 * e12 + e13 / 16)) + (16 * (e13 % 16) + e14 / 2)) + (128 * (e14 % 2) + 4 * e15 + e16 / 8)) (32 * (e16 % 8) + e17) (2 ^ 82) hb10 hXb11) (by norm_num)
  rw [chain_step_small (256 * (256 * (256 * (256 * (256 * (256 * (256 * (256 * (256 * (256 * (32 * e0 + e1) + (8 * e2 + e3 / 4)) + (64 * (e3 % 4) + 2 * e4 + e5 / 16)) + (16 * (e5 % 16) + e6 / 2)) + (128 * (e6 % 2) + 4 * e7 + e8 / 8)) + (32 * (e8 % 8) + e9)) + (8 * e10 + e11 / 4)) + (64 * (e11 % 4) + 2 * e12 + e13 / 16)) + (16 * (e13 % 16) + e14 / 2)) + (128 * (e14 % 2) + 4 * e15 + e16 / 8)) + (32 * (e16 % 8) + e17)) (8 * e18 + e19 / 4) (lt_of_lt_of_le hb11 (by norm_num)) hXb12]
  have hb12 : (256 * (256 * (256 * (256 * (256 * (256 * (256 * (256 * (256 * (256 * (256 * (32 * e0 + e1) + (8 * e2 + e3 / 4)) + (64 * (e3 % 4) + 2 * e4 + e5 / 16)) + (16 * (e5 % 16) + e6 / 2)) + (128 * (e6 % 2) + 4 * e7 + e8 / 8)) + (32 * (e8 % 8) + e9)) + (8 * e10 + e11 / 4)) + (64 * (e11 % 4) + 2 * e12 + e13 / 16)) + (16 * (e13 % 16) + e14 / 2)) + (128 * (e14 % 2) + 4 * e15 + e16 / 8)) + (32 * (e16 % 8) + e17)) + (8 * e18 + e19 / 4)) < 2 ^ 98 :=
    lt_of_lt_of_le (boundStep (256 * (256 * (256 * (256 * (256 * (256 * (256 * (256 * (256 * (256 * (32 * e0 + e1) + (8 * e2 + e3 / 4)) + (64 * (e3 % 4) + 2 * e4 + e5 / 16)) + (16 * (e5 % 16) + e6 / 2)) + (128 * (e6 % 2) + 4 * e7 + e8 / 8)) + (32 * (e8 % 8) + e9)) + (8 * e10 + e11 / 4)) + (64 * (e11 % 4) + 2 * e12 + e13 / 16)) + (16 * (e13 % 16) + e14 / 2)) + (128 * (e14 % 2) + 4 * e15 + e16 / 8)) + (32 * (e16 % 8) + e17)) (8 * e18 + e19 / 4) (2 ^ 90) hb11 hXb12) (by norm_num)
  rw [chain_step_spill2 (256 * (256 * (256 * (256 * (256 * (256 * (256 * (256 * (256 * (256 * (256 * (32 * e0 + e1) + (8 * e2 + e3 / 4)) + (64 * (e3 % 4) + 2 * e4 + e5 / 16)) + (16 * (e5 % 16) + e6 / 2)) + (128 * (e6 % 2) + 4 * e7 + e8 / 8)) + (32 * (e8 % 8) + e9)) + (8 * e10 + e11 / 4)) + (64 * (e11 % 4) + 2 * e12 + e13 / 16)) + (16 * (e13 % 16) + e14 / 2)) + (128 * (e14 % 2) + 4 * e15 + e16 / 8)) + (32 * (e16 % 8) + e17)) + (8 * e18 + e19 / 4)) (64 * e19 + 2 * e20 + e21 / 16) (64 * (e19 % 4) + 2 * e20 + e21 / 16) (256 * (256 * (256 * (256 * (256 * (256 * (256 * (256 * (256 * (256 * (32 * e0 + e1) + (8 * e2 + e3 / 4)) + (64 * (e3 % 4) + 2 * e4 + e5 / 16)) + (16 * (e5 % 16) + e6 / 2)) + (128 * (e6 % 2) + 4 * e7 + e8 / 8)) + (32 * (e8 % 8) + e9)) + (8 * e10 + e11 / 4)) + (64 * (e11 % 4) + 2 * e12 + e13 / 16)) + (16 * (e13 % 16) + e14 / 2)) + (128 * (e14 % 2) + 4 * e15 + e16 / 8)) + (32 * (e16 % 8) + e17)) ((8 * e18 + e19 / 4)) rfl hXb12 hOb13 hX13 habs13 (lt_of_lt_of_le hb12 (by norm_num))]
  have hb13 : (256 * (256 * (256 * (256 * (256 * (256 * (256 * (256 * (256 * (256 * (256 * (256 * (32 * e0 + e1) + (8 * e2 + e3 / 4)) + (64 * (e3 % 4) + 2 * e4 + e5 / 16)) + (16 * (e5 % 16) + e6 / 2)) + (128 * (e6 % 2) + 4 * e7 + e8 / 8)) + (32 * (e8 % 8) + e9)) + (8 * e10 + e11 / 4)) + (64 * (e11 % 4) + 2 * e12 + e13 / 16)) + (16 * (e13 % 16) + e14 / 2)) + (128 * (e14 % 2) + 4 * e15 + e16 / 8)) + (32 * (e16 % 8) + e17)) + (8 * e18 + e19 / 4)) + (64 * (e19 % 4) + 2 * e20 + e21 / 16)) < 2 ^ 106 :=
    lt_of_lt_of_le (boundStep (256 * (256 * (256 * (256 * (256 * (256 * (256 * (256 * (256 * (256 * (256 * (32 * e0 + e1) + (8 * e2 + e3 / 4)) + (64 * (e3 % 4) + 2 * e4 + e5 / 16)) + (16 * (e5 % 16) + e6 / 2)) + (128 * (e6 % 2) + 4 * e7 + e8 / 8)) + (32 * (e8 % 8) + e9)) + (8 * e10 + e11 / 4)) + (64 * (e11 % 4) + 2 * e12 + e13 / 16)) + (16 * (e13 % 16) + e14 / 2)) + (128 * (e14 % 2) + 4 * e15 + e16 / 8)) + (32 * (e16 % 8) + e17)) + (8 * e18 + e19 / 4)) (64 * (e19 % 4) + 2 * e20 + e21 / 16) (2 ^ 98) hb12 hXb13) (by norm_num)
  rw [chain_step_spill2 (256 * (256 * (256 * (256 * (256 * (256 * (256 * (256 * (256 * (256 * (256 * (256 * (32 * e0 + e1) + (8 * e2 + e3 / 4)) + (64 * (e3 % 4) + 2 * e4 + e5 / 16)) + (16 * (e5 % 16) + e6 / 2)) + (128 * (e6 % 2) + 4 * e7 + e8 / 8)) + (32 * (e8 % 8) + e9)) + (8 * e10 + e11 / 4)) + (64 * (e11 % 4) + 2 * e12 + e13 / 16)) + (16 * (e13 % 16) + e14 / 2)) + (128 * (e14 % 2) + 4 * e15 + e16 / 8)) + (32 * (e16 % 8) + e17)) + (8 * e18 + e19 / 4)) + (64 * (e19 % 4) + 2 * e20 + e21 / 16)) (16 * e21 + e22 / 2) (16 * (e21 % 16) + e22 / 2) (256 * (256 * (256 * (256 * (256 * (256 * (256 * (256 * (256 * (256 * (256 * (32 * e0 + e1) + (8 * e2 + e3 / 4)) + (64 * (e3 % 4) + 2 * e4 + e5 / 16)) + (16 * (e5 % 16) + e6 / 2)) + (128 * (e6 % 2) + 4 * e7 + e8 / 8)) + (32 * (e8 % 8) + e9)) + (8 * e10 + e11 / 4)) + (64 * (e11 % 4) + 2 * e12 + e13 / 16)) + (16 * (e13 % 16) + e14 / 2)) + (128 * (e14 % 2) + 4 * e15 + e16 / 8)) + (32 * (e16 % 8) + e17)) + (8 * e18 + e19 / 4)) ((64 * (e19 % 4) + 2 * e20 + e21 / 16)) rfl hXb13 hOb14 hX14 habs14 (lt_of_lt_of_le hb13 (by norm_num))]
  have hb14 : (256 * (256 * (256 * (256 * (256 * (256 * (256 * (256 * (256 * (256 * (256 * (256 * (256 * (32 * e0 + e1) + (8 * e2 + e3 / 4)) + (64 * (e3 % 4) + 2 * e4 + e5 / 16)) + (16 * (e5 % 16) + e6 / 2)) + (128 * (e6 % 2) + 4 * e7 + e8 / 8)) + (32 * (e8 % 8) + e9)) + (8 * e10 + e11 / 4)) + (64 * (e11 % 4) + 2 * e12 + e13 / 16)) + (16 * (e13 % 16) + e14 / 2)) + (128 * (e14 % 2) + 4 * e15 + e16 / 8)) + (32 * (e16 % 8) + e17)) + (8 * e18 + e19 / 4)) + (64 * (e19 % 4) + 2 * e20 + e21 / 16)) + (16 * (e21 % 16) + e22 / 2)) < 2 ^ 114 :=
    lt_of_lt_of_le (boundStep (256 * (256 * (256 * (256 * (256 * (256 * (256 * (256 * (256 * (256 * (256 * (256 * (32 * e0 + e1) + (8 * e2 + e3 / 4)) + (64 * (e3 % 4) + 2 * e4 + e5 / 16)) + (16 * (e5 % 16) + e6 / 2)) + (128 * (e6 % 2) + 4 * e7 + e8 / 8)) + (32 * (e8 % 8) + e9)) + (8 * e10 + e11 / 4)) + (64 * (e11 % 4) + 2 * e12 + e13 / 16)) + (16 * (e13 % 16) + e14 / 2)) + (128 * (e14 % 2) + 4 * e15 + e16 / 8)) + (32 * (e16 % 8) + e17)) + (8 * e18 + e19 / 4)) + (64 * (e19 % 4) + 2 * e20 + e21 / 16)) (16 * (e21 % 16) + e22 / 2) (2 ^ 106) hb13 hXb14) (by norm_num)
  rw [chain_step_spill2 (256 * (256 * (256 * (256 * (256 * (256 * (256 * (256 * (256 * (256 * (256 * (256 * (256 * (32 * e0 + e1) + (8 * e2 + e3 / 4)) + (64 * (e3 % 4) + 2 * e4 + e5 / 16)) + (16 * (e5 % 16) + e6 / 2)) + (128 * (e6 % 2) + 4 * e7 + e8 / 8)) + (32 * (e8 % 8) + e9)) + (8 * e10 + e11 / 4)) + (64 * (e11 % 4) + 2 * e12 + e13 / 16)) + (16 * (e13 % 16) + e14 / 2)) + (128 * (e14 % 2) + 4 * e15 + e16 / 8)) + (32 * (e16 % 8) + e17)) + (8 * e18 + e19 / 4)) + (64 * (e19 % 4) + 2 * e20 + e21 / 16)) + (16 * (e21 % 16) + e22 / 2)) (128 * e22 + 4 * e23 + e24 / 8) (128 * (e22 % 2) + 4 * e23 + e24 / 8) (256 * (256 * (256 * (256 * (256 * (256 * (256 * (256 * (256 * (256 * (256 * (256 * (32 * e0 + e1) + (8 * e2 + e3 / 4)) + (64 * (e3 % 4) + 2 * e4 + e5 / 16)) + (16 * (e5 % 16) + e6 / 2)) + (128 * (e6 % 2) + 4 * e7 + e8 / 8)) + (32 * (e8 % 8) + e9)) + (8 * e10 + e11 / 4)) + (64 * (e11 % 4) + 2 * e12 + e13 / 16)) + (16 * (e13 % 16) + e14 / 2)) + (128 * (e14 % 2) + 4 * e15 + e16 / 8)) + (32 * (e16 % 8) + e17)) + (8 * e18 + e19 / 4)) + (64 * (e19 % 4) + 2 * e20 + e21 / 16)) ((16 * (e21 % 16) + e22 / 2)) rfl hXb14 hOb15 hX15 habs15 (lt_of_lt_of_le hb14 (by norm_num))]
  have hb15 : (256 * (256 * (256 * (256 * (256 * (256 * (256 * (256 * (256 * (256 * (256 * (256 * (256 * (256 * (32 * e0 + e1) + (8 * e2 + e3 / 4)) + (64 * (e3 % 4) + 2 * e4 + e5 / 16)) + (16 * (e5 % 16) + e6 / 2)) + (128 * (e6 % 2) + 4 * e7 + e8 / 8)) + (32 * (e8 % 8) + e9)) + (8 * e10 + e11 / 4)) + (64 * (e11 % 4) + 2 * e12 + e13 / 16)) + (16 * (e13 % 16) + e14 / 2)) + (128 * (e14 % 2) + 4 * e15 + e16 / 8)) + (32 * (e16 % 8) + e17)) + (8 * e18 + e19 / 4)) + (64 * (e19 % 4) + 2 * e20 + e21 / 16)) + (16 * (e21 % 16) + e22 / 2)) + (128 * (e22 % 2) + 4 * e23 + e24 / 8)) < 2 ^ 122 :=
    lt_of_lt_of_le (boundStep (256 * (256 * (256 * (256 * (256 * (256 * (256 * (256 * (256 * (256 * (256 * (256 * (256 * (32 * e0 + e1) + (8 * e2 + e3 / 4)) + (64 * (e3 % 4) + 2 * e4 + e5 / 16)) + (16 * (e5 % 16) + e6 / 2)) + (128 * (e6 % 2) + 4 * e7 + e8 / 8)) + (32 * (e8 % 8) + e9)) + (8 * e10 + e11 / 4)) + (64 * (e11 % 4) + 2 * e12 + e13 / 16)) + (16 * (e13 % 16) + e14 / 2)) + (128 * (e14 % 2) + 4 * e15 + e16 / 8)) + (32 * (e16 % 8) + e17)) + (8 * e18 + e19 / 4)) + (64 * (e19 % 4) + 2 * e20 + e21 / 16)) + (16 * (e21 % 16) + e22 / 2)) (128 * (e22 % 2) + 4 * e23 + e24 / 8) (2 ^ 114) hb14 hXb15) (by norm_num)
  rw [chain_step_final (256 * (256 * (256 * (256 * (256 * (256 * (256 * (256 * (256 * (256 * (256 * (256 * (256 * (256 * (32 * e0 + e1) + (8 * e2 + e3 / 4)) + (64 * (e3 % 4) + 2 * e4 + e5 / 16)) + (16 * (e5 % 16) + e6 / 2)) + (128 * (e6 % 2) + 4 * e7 + e8 / 8)) + (32 * (e8 % 8) + e9)) + (8 * e10 + e11 / 4)) + (64 * (e11 % 4) + 2 * e12 + e13 / 16)) + (16 * (e13 % 16) + e14 / 2)) + (128 * (e14 % 2) + 4 * e15 + e16 / 8)) + (32 * (e16 % 8) + e17)) + (8 * e18 + e19 / 4)) + (64 * (e19 % 4) + 2 * e20 + e21 / 16)) + (16 * (e21 % 16) + e22 / 2)) + (128 * (e22 % 2) + 4 * e23 + e24 / 8)) (32 * e24 + e25) (32 * (e24 % 8) + e25) (256 * (256 * (256 * (256 * (256 * (256 * (256 * (256 * (256 * (256 * (256 * (256 * (256 * (32 * e0 + e1) + (8 * e2 + e3 / 4)) + (64 * (e3 % 4) + 2 * e4 + e5 / 16)) + (16 * (e5 % 16) + e6 / 2)) + (128 * (e6 % 2) + 4 * e7 + e8 / 8)) + (32 * (e8 % 8) + e9)) + (8 * e10 + e11 / 4)) + (64 * (e11 % 4) + 2 * e12 + e13 / 16)) + (16 * (e13 % 16) + e14 / 2)) + (128 * (e14 % 2) + 4 * e15 + e16 / 8)) + (32 * (e16 % 8) + e17)) + (8 * e18 + e19 / 4)) + (64 * (e19 % 4) + 2 * e20 + e21 / 16)) + (16 * (e21 % 16) + e22 / 2)) ((128 * (e22 % 2) + 4 * e23 + e24 / 8)) rfl hXb15 hOb16 hX16 habs16]
  omega

/-- The scalar text decoder agrees with the byte-array text decoder on
texts made solely of alphabet characters.  (On other inputs they can
differ: the sentinel's spilled bits land in different bytes.) -/
theorem unmarshalText128_eq (s : List Char) (hlen : s.length = 26)
    (hs : ∀ c ∈ s, c ∈ Encoding) :
    (UnmarshalFrom s).toNat = Ulid128.UnmarshalFrom s := by
  rcases s with _ | ⟨c0, s⟩
  · simp at hlen
  rcases s with _ | ⟨c1, s⟩
  · simp at hlen
  rcases s with _ | ⟨c2, s⟩
  · simp at hlen
  rcases s with _ | ⟨c3, s⟩
  · simp at hlen
  rcases s with _ | ⟨c4, s⟩
  · simp at hlen
  rcases s with _ | ⟨c5, s⟩
  · simp at hlen
  rcases s with _ | ⟨c6, s⟩
  · simp at hlen
  rcases s with _ | ⟨c7, s⟩
  · simp at hlen
  rcases s with _ | ⟨c8, s⟩
  · simp at hlen
  rcases s with _ | ⟨c9, s⟩
  · simp at hlen
  rcases s with _ | ⟨c10, s⟩
  · simp at hlen
  rcases s with _ | ⟨c11, s⟩
  · simp at hlen
  rcases s with _ | ⟨c12, s⟩
  · simp at hlen
  rcases s with _ | ⟨c13, s⟩
  · simp at hlen
  rcases s with _ | ⟨c14, s⟩
  · simp at hlen
  rcases s with _ | ⟨c15, s⟩
  · simp at hlen
  rcases s with _ | ⟨c16, s⟩
  · simp at hlen
  rcases s with _ | ⟨c17, s⟩
  · simp at hlen
  rcases s with _ | ⟨c18, s⟩
  · simp at hlen
  rcases s with _ | ⟨c19, s⟩
  · simp at hlen
  rcases s with _ | ⟨c20, s⟩
  · simp at hlen
  rcases s with _ | ⟨c21, s⟩
  · simp at hlen
  rcases s with _ | ⟨c22, s⟩
  · simp at hlen
  rcases s with _ | ⟨c23, s⟩
  · simp at hlen
  rcases s with _ | ⟨c24, s⟩
  · simp at hlen
  rcases s with _ | ⟨c25, s⟩
  · simp at hlen
  have hnil : s = [] := by
    cases s with
    | nil => rfl
    | cons c cs =>
      exfalso
      simp only [List.length_cons, List.length_nil] at hlen
      omega
  subst hnil
  have hd0 : dec c0 < 32 := decInRange c0 (hs c0 (by simp))
  have hd1 : dec c1 < 32 := decInRange c1 (hs c1 (by simp))
  have hd2 : dec c2 < 32 := decInRange c2 (hs c2 (by simp))
  have hd3 : dec c3 < 32 := decInRange c3 (hs c3 (by simp))
  have hd4 : dec c4 < 32 := decInRange c4 (hs c4 (by simp))
  have hd5 : dec c5 < 32 := decInRange c5 (hs c5 (by simp))
  have hd6 : dec c6 < 32 := decInRange c6 (hs c6 (by simp))
  have hd7 : dec c7 < 32 := decInRange c7 (hs c7 (by simp))
  have hd8 : dec c8 < 32 := decInRange c8 (hs c8 (by simp))
  have hd9 : dec c9 < 32 := decInRange c9 (hs c9 (by simp))
  have hd10 : dec c10 < 32 := decInRange c10 (hs c10 (by simp))
  have hd11 : dec c11 < 32 := decInRange c11 (hs c11 (by simp))
  have hd12 : dec c12 < 32 := decInRange c12 (hs c12 (by simp))
  have hd13 : dec c13 < 32 := decInRange c13 (hs c13 (by simp))
  have hd14 : dec c14 < 32 := decInRange c14 (hs c14 (by simp))
  have hd15 : dec c15 < 32 := decInRange c15 (hs c15 (by simp))
  have hd16 : dec c16 < 32 := decInRange c16 (hs c16 (by simp))
  have hd17 : dec c17 < 32 := decInRange c17 (hs c17 (by simp))
  have hd18 : dec c18 < 32 := decInRange c18 (hs c18 (by simp))
  have hd19 : dec c19 < 32 := decInRange c19 (hs c19 (by simp))
  have hd20 : dec c20 < 32 := decInRange c20 (hs c20 (by simp))
  have hd21 : dec c21 < 32 := decInRange c21 (hs c21 (by simp))
  have hd22 : dec c22 < 32 := decInRange c22 (hs c22 (by simp))
  have hd23 : dec c23 < 32 := decInRange c23 (hs c23 (by simp))
  have hd24 : dec c24 < 32 := decInRange c24 (hs c24 (by simp))
  have hd25 : dec c25 < 32 := decInRange c25 (hs c25 (by simp))
  simp only [UnmarshalFrom, Ulid128.UnmarshalFrom, ULID.toNat,
    List.getD_cons_zero, List.getD_cons_succ]
  exact textChainEval (dec c0) (dec c1) (dec c2) (dec c3) (dec c4) (dec c5) (dec c6) (dec c7) (dec c8) (dec c9) (dec c10) (dec c11) (dec c12) (dec c13) (dec c14) (dec c15) (dec c16) (dec c17) (dec c18) (dec c19) (dec c20) (dec c21) (dec c22) (dec c23) (dec c24) (dec c25) hd0 hd1 hd2 hd3 hd4 hd5 hd6 hd7 hd8 hd9 hd10 hd11 hd12 hd13 hd14 hd15 hd16 hd17 hd18 hd19 hd20 hd21 hd22 hd23 hd24 hd25

/-- C3: the byte-array representation and the 128-bit scalar representation
agree on marshal-to-text, marshal-to-binary, compare and timestamp
extraction for every pair of well-formed identifiers, on
unmarshal-from-binary for every 16-byte input, and on unmarshal-from-text
for every 26-character text made solely of alphabet characters (they
disagree on some non-alphabet texts, see the counterexample). -/
theorem ulid_repr_equivalence (u v : ULID) (b : List Nat) (s : List Char)
    (hu : u.Wf) (hv : v.Wf)
    (hblen : b.length = 16) (hb : ∀ x ∈ b, x < 256)
    (hslen : s.length = 26) (hs : ∀ c ∈ s, c ∈ Encoding) :
    Ulid128.MarshalTo u.toNat = MarshalTo u ∧
    Ulid128.MarshalBinaryTo u.toNat = MarshalBinaryTo u ∧
    Ulid128.CompareULIDs u.toNat v.toNat = CompareULIDs u v ∧
    Ulid128.Time u.toNat = Time u ∧
    (UnmarshalBinaryFrom b).toNat = Ulid128.UnmarshalBinaryFrom b ∧
    (UnmarshalFrom s).toNat = Ulid128.UnmarshalFrom s :=
  ⟨marshal128_eq u hu, marshalBinary128_eq u hu, compare128_eq u v hu hv,
   time128_eq u hu, unmarshalBinary128_eq b hblen hb,
   unmarshalText128_eq s hslen hs⟩

/-- C3 counterexample: on the 26-character text with the out-of-alphabet
byte 33 at index 2, the two text decoders return different identifier
values, so the representations are not observably identical on every
26-character text input. -/
theorem ulid_repr_counterexample :
    (UnmarshalFrom bangText).toNat ≠ Ulid128.UnmarshalFrom bangText := by
  decide

/-- Witness for C3 at concrete inputs. -/
theorem ulid_repr_equivalence_witness :
    sampleULID.Wf ∧
    ((UnmarshalFrom (List.replicate 26 '0')).toNat =
      Ulid128.UnmarshalFrom (List.replicate 26 '0')) :=
  ⟨by decide,
   (ulid_repr_equivalence sampleULID sampleULID2 (List.replicate 16 0)
     (List.replicate 26 '0') (by decide) (by decide) (by decide) (by decide)
     (by decide) (by decide)).2.2.2.2.2⟩
